/-
Verification development for the FttH trench-network planner
(`trenches2.py`).  The Python source is shallowly embedded: real-valued
geometry is modelled over `ℝ`, Python dicts keyed by coordinates or by
canonical street identifiers are modelled as association lists, Python
exceptions (`raise`, `KeyError`, `ZeroDivisionError`) are modelled with
`Except String`, and Python's `round(x, 7)` is modelled with `round7`
below.  Street identifiers (`str(sorted([u, v]))` in the source) are
modelled as the sorted pair of node ids.
-/
import Mathlib

open scoped Classical

noncomputable section

/-- A planar point, modelling the `{'x': ..., 'y': ...}` dicts of the source. -/
structure Pt where
  x : ℝ
  y : ℝ

/-- `point_distance_from_line` from trenches2.py: the cross-product based
signed distance of `point` from the line through the two points of `line`. -/
def point_distance_from_line (line : Pt × Pt) (point : Pt) : ℝ :=
  ((point.x - line.1.x) * (line.2.y - line.1.y))
    - ((point.y - line.1.y) * (line.2.x - line.1.x))

/-- `node_distance` from trenches2.py: Euclidean distance between two points
(`(dx ** 2 + dy ** 2) ** 0.5`). -/
def node_distance (node1 node2 : Pt) : ℝ :=
  Real.sqrt (((node2.x - node1.x) ^ 2) + ((node2.y - node1.y) ^ 2))

/-- `angle` from trenches2.py.  `math.hypot` is `Real.sqrt` of the sum of
squares and `math.acos` is `Real.arccos`.  The source raises
`ZeroDivisionError` on zero vectors; every claim about this function
carries nonzero-vector hypotheses, matching its callers. -/
def angle (vector1 vector2 : ℝ × ℝ) : ℝ :=
  let inner_product := vector1.1 * vector2.1 + vector1.2 * vector2.2
  let len1 := Real.sqrt (vector1.1 ^ 2 + vector1.2 ^ 2)
  let len2 := Real.sqrt (vector2.1 ^ 2 + vector2.2 ^ 2)
  if vector2.2 < vector1.2 then
    Real.pi - Real.arccos (inner_product / (len1 * len2)) + Real.pi
  else
    Real.arccos (inner_product / (len1 * len2))

/-- `point_on_circle` from trenches2.py. -/
def point_on_circle (center : Pt) (radius : ℝ) (radian : ℝ) : ℝ × ℝ :=
  (center.x + radius * Real.cos radian, center.y + radius * Real.sin radian)

/-- Python's `round(x, 7)`: round to 7 decimal places.  (Mathlib's `round`
rounds half-way cases up, CPython rounds them to even; no input considered
in this development sits on a half-way case.) -/
def round7 (x : ℝ) : ℝ :=
  (round (x * 10 ^ 7) : ℤ) / 10 ^ 7

/-- `get_parallel_line_points` from trenches2.py: offset the segment
`u_node → v_node` perpendicularly by `vector_distance` on side `side_id`,
rounding the resulting coordinates to 7 decimals.  The zero-length guard
replaces a zero `road_length` with `0.00001`. -/
def get_parallel_line_points (u_node v_node : Pt) (vector_distance : ℝ)
    (side_id : Nat) : Pt × Pt :=
  let dx := u_node.x - v_node.x
  let dy := u_node.y - v_node.y
  let road_length0 := Real.sqrt (dx ^ 2 + dy ^ 2)
  let road_length := if road_length0 = 0 then 0.00001 else road_length0
  let t := vector_distance / road_length
  let dx1 := if side_id = 1 then -1 * dy else dy
  let dy1 := if side_id = 1 then dx else -1 * dx
  let xu1 := u_node.x + dx1
  let yu1 := u_node.y + dy1
  let xu1t := round7 ((1 - t) * u_node.x + t * xu1)
  let yu1t := round7 ((1 - t) * u_node.y + t * yu1)
  let xv1 := v_node.x + dx1
  let yv1 := v_node.y + dy1
  let xv1t := round7 ((1 - t) * v_node.x + t * xv1)
  let yv1t := round7 ((1 - t) * v_node.y + t * yv1)
  (⟨xu1t, yu1t⟩, ⟨xv1t, yv1t⟩)

/-- The 2×2 determinant helper `det` nested in `get_intersection_point`
and `intersection_between_points`. -/
def det2 (a b : ℝ × ℝ) : ℝ := a.1 * b.2 - a.2 * b.1

/-- `get_intersection_point` from trenches2.py: intersection of two
infinite lines; `raise Exception('lines do not intersect')` on a zero
determinant is modelled by `none`. -/
def get_intersection_point (line1 line2 : (ℝ × ℝ) × (ℝ × ℝ)) :
    Option (ℝ × ℝ) :=
  let xdiff : ℝ × ℝ := (line1.1.1 - line1.2.1, line2.1.1 - line2.2.1)
  let ydiff : ℝ × ℝ := (line1.1.2 - line1.2.2, line2.1.2 - line2.2.2)
  let div := det2 xdiff ydiff
  if div = 0 then none
  else
    let d : ℝ × ℝ := (det2 line1.1 line1.2, det2 line2.1 line2.2)
    some (det2 d xdiff / div, det2 d ydiff / div)

/-- `is_between` from trenches2.py: is `c` on the segment `a–b`, up to the
source's floating-point tolerance `0.00000005` on the cross product. -/
def is_between (a b c : ℝ × ℝ) : Prop :=
  let crossproduct := (c.2 - a.2) * (b.1 - a.1) - (c.1 - a.1) * (b.2 - a.2)
  if 0.00000005 < |crossproduct| then False
  else
    let dotproduct := (c.1 - a.1) * (b.1 - a.1) + (c.2 - a.2) * (b.2 - a.2)
    if dotproduct < 0 then False
    else
      let squaredlengthba := (b.1 - a.1) * (b.1 - a.1) + (b.2 - a.2) * (b.2 - a.2)
      if squaredlengthba < dotproduct then False
      else True

/-- `intersection_between_points` from trenches2.py: do the two lines
intersect at a point lying on the first segment?  A zero determinant
(parallel lines) yields `False`. -/
def intersection_between_points (l1 l2 : Pt × Pt) : Prop :=
  let line1 : (ℝ × ℝ) × (ℝ × ℝ) := ((l1.1.x, l1.1.y), (l1.2.x, l1.2.y))
  let line2 : (ℝ × ℝ) × (ℝ × ℝ) := ((l2.1.x, l2.1.y), (l2.2.x, l2.2.y))
  let xdiff : ℝ × ℝ := (line1.1.1 - line1.2.1, line2.1.1 - line2.2.1)
  let ydiff : ℝ × ℝ := (line1.1.2 - line1.2.2, line2.1.2 - line2.2.2)
  let div := det2 xdiff ydiff
  if div = 0 then False
  else
    let d : ℝ × ℝ := (det2 line1.1 line1.2, det2 line2.1 line2.2)
    let x := det2 d xdiff / div
    let y := det2 d ydiff / div
    is_between line1.1 line1.2 (x, y)

/-- The module-level constant `distance_from_center_of_road = 0.0001`. -/
def distance_from_center_of_road : ℝ := 0.0001

end

open scoped Real

noncomputable section

/-! ### Facts about `angle` -/

/-- Cauchy–Schwarz for the planar inner product, in the quotient form used
by `angle`. -/
lemma abs_inner_div_le_one (x1 y1 x2 y2 : ℝ) :
    |(x1 * x2 + y1 * y2) / (Real.sqrt (x1 ^ 2 + y1 ^ 2) * Real.sqrt (x2 ^ 2 + y2 ^ 2))| ≤ 1 := by
  rcases eq_or_ne (Real.sqrt (x1 ^ 2 + y1 ^ 2) * Real.sqrt (x2 ^ 2 + y2 ^ 2)) 0 with h | h
  · rw [h, div_zero]; norm_num
  have hnn : 0 ≤ Real.sqrt (x1 ^ 2 + y1 ^ 2) * Real.sqrt (x2 ^ 2 + y2 ^ 2) :=
    mul_nonneg (Real.sqrt_nonneg _) (Real.sqrt_nonneg _)
  have hpos : 0 < Real.sqrt (x1 ^ 2 + y1 ^ 2) * Real.sqrt (x2 ^ 2 + y2 ^ 2) :=
    lt_of_le_of_ne hnn (Ne.symm h)
  rw [abs_div, abs_of_nonneg hnn, div_le_one hpos]
  have hsq : (x1 * x2 + y1 * y2) ^ 2 ≤ (x1 ^ 2 + y1 ^ 2) * (x2 ^ 2 + y2 ^ 2) := by
    nlinarith [sq_nonneg (x1 * y2 - y1 * x2)]
  have hmul : Real.sqrt (x1 ^ 2 + y1 ^ 2) * Real.sqrt (x2 ^ 2 + y2 ^ 2)
      = Real.sqrt ((x1 ^ 2 + y1 ^ 2) * (x2 ^ 2 + y2 ^ 2)) :=
    (Real.sqrt_mul (by positivity) _).symm
  calc |x1 * x2 + y1 * y2| = Real.sqrt ((x1 * x2 + y1 * y2) ^ 2) :=
        (Real.sqrt_sq_eq_abs _).symm
    _ ≤ Real.sqrt ((x1 ^ 2 + y1 ^ 2) * (x2 ^ 2 + y2 ^ 2)) := Real.sqrt_le_sqrt hsq
    _ = _ := hmul.symm

lemma angle_of_lt (v1 v2 : ℝ × ℝ) (h : v2.2 < v1.2) :
    angle v1 v2 = Real.pi - Real.arccos ((v1.1 * v2.1 + v1.2 * v2.2) /
      (Real.sqrt (v1.1 ^ 2 + v1.2 ^ 2) * Real.sqrt (v2.1 ^ 2 + v2.2 ^ 2))) + Real.pi := by
  simp only [angle, if_pos h]

lemma angle_of_not_lt (v1 v2 : ℝ × ℝ) (h : ¬ v2.2 < v1.2) :
    angle v1 v2 = Real.arccos ((v1.1 * v2.1 + v1.2 * v2.2) /
      (Real.sqrt (v1.1 ^ 2 + v1.2 ^ 2) * Real.sqrt (v2.1 ^ 2 + v2.2 ^ 2))) := by
  simp only [angle, if_neg h]

/-- Evaluation of `angle ((1,0), (c,0))` for `c > 0`: both vectors point
along the positive x-axis, so the angle is `0`. -/
lemma angle_east (c : ℝ) (hc : 0 < c) : angle (1, 0) (c, 0) = 0 := by
  rw [angle_of_not_lt _ _ (by norm_num)]
  have h2 : Real.sqrt (c ^ 2 + 0 ^ 2) = c := by
    rw [show c ^ 2 + 0 ^ 2 = c ^ 2 by ring, Real.sqrt_sq hc.le]
  simp only [h2]
  rw [show (1:ℝ) ^ 2 + 0 ^ 2 = 1 by ring, Real.sqrt_one]
  rw [show (1 * c + 0 * 0) / (1 * c) = 1 by field_simp]
  exact Real.arccos_one

/-- Evaluation of `angle ((1,0), (0,c))` for `c > 0`: the angle is `π/2`. -/
lemma angle_north (c : ℝ) (hc : 0 < c) : angle (1, 0) (0, c) = π / 2 := by
  rw [angle_of_not_lt _ _ (by simpa using hc.le.not_lt)]
  rw [show (1:ℝ) * 0 + 0 * c = 0 by ring, zero_div]
  exact Real.arccos_zero

/-- Evaluation of `angle ((1,0), (-c,0))` for `c > 0`: the angle is `π`. -/
lemma angle_west (c : ℝ) (hc : 0 < c) : angle (1, 0) (-c, 0) = π := by
  rw [angle_of_not_lt _ _ (by norm_num)]
  have h2 : Real.sqrt ((-c) ^ 2 + 0 ^ 2) = c := by
    rw [show (-c) ^ 2 + 0 ^ 2 = c ^ 2 by ring, Real.sqrt_sq hc.le]
  simp only [h2]
  rw [show (1:ℝ) ^ 2 + 0 ^ 2 = 1 by ring, Real.sqrt_one]
  rw [show (1 * -c + 0 * 0) / (1 * c) = -1 by field_simp]
  exact Real.arccos_neg_one

/-- Evaluation of `angle ((1,0), (0,-c))` for `c > 0`: the y-branch is taken
and the result is `3π/2`. -/
lemma angle_south (c : ℝ) (hc : 0 < c) : angle (1, 0) (0, -c) = 3 * π / 2 := by
  rw [angle_of_lt _ _ (by simpa using hc)]
  rw [show (1:ℝ) * 0 + 0 * -c = 0 by ring, zero_div, Real.arccos_zero]
  ring

/-- For a nonzero direction vector, `angle ((1,0), v)` lies in `[0, 2π)`.
This is the radian fed to the corner synthesizer for each incident street. -/
lemma angle_unit_lt_two_pi (v : ℝ × ℝ) (hv : v ≠ (0, 0)) :
    0 ≤ angle (1, 0) v ∧ angle (1, 0) v < 2 * π := by
  have hne : v.1 ≠ 0 ∨ v.2 ≠ 0 := by
    by_contra hc
    push_neg at hc
    exact hv (Prod.ext hc.1 hc.2)
  have hlen : 0 < Real.sqrt (v.1 ^ 2 + v.2 ^ 2) := by
    apply Real.sqrt_pos.2
    rcases hne with h1 | h1
    · have := pow_two_pos_of_ne_zero h1
      nlinarith [sq_nonneg v.2]
    · have := pow_two_pos_of_ne_zero h1
      nlinarith [sq_nonneg v.1]
  by_cases hy : v.2 < 0
  · rw [angle_of_lt (1, 0) v (by simpa using hy)]
    have harc : 0 < Real.arccos ((1 * v.1 + 0 * v.2) /
        (Real.sqrt (1 ^ 2 + 0 ^ 2) * Real.sqrt (v.1 ^ 2 + v.2 ^ 2))) := by
      rw [show (1:ℝ) ^ 2 + 0 ^ 2 = 1 by ring, Real.sqrt_one, one_mul, one_mul, zero_mul,
        add_zero]
      apply Real.arccos_pos.2
      rcases le_or_lt v.1 0 with h1 | h1
      · exact lt_of_le_of_lt (div_nonpos_of_nonpos_of_nonneg h1 hlen.le) one_pos
      · rw [div_lt_one hlen]
        have : v.1 = Real.sqrt (v.1 ^ 2) := (Real.sqrt_sq h1.le).symm
        rw [this]
        exact Real.sqrt_lt_sqrt (sq_nonneg _) (by nlinarith [sq_nonneg v.2, hy])
    constructor
    · have := Real.arccos_le_pi ((1 * v.1 + 0 * v.2) /
        (Real.sqrt (1 ^ 2 + 0 ^ 2) * Real.sqrt (v.1 ^ 2 + v.2 ^ 2)))
      linarith
    · linarith
  · rw [angle_of_not_lt (1, 0) v (by simpa using hy)]
    refine ⟨Real.arccos_nonneg _, ?_⟩
    have := Real.arccos_le_pi ((1 * v.1 + 0 * v.2) /
      (Real.sqrt (1 ^ 2 + 0 ^ 2) * Real.sqrt (v.1 ^ 2 + v.2 ^ 2)))
    have hpi := Real.pi_pos
    linarith

/-- C6 counterexample evaluation: `angle ((2,2), (1,1)) = 2π`. -/
lemma angle_two_two_one_one : angle (2, 2) (1, 1) = 2 * π := by
  rw [angle_of_lt (2, 2) (1, 1) (by norm_num)]
  have h1 : Real.sqrt ((2:ℝ) ^ 2 + 2 ^ 2) * Real.sqrt ((1:ℝ) ^ 2 + 1 ^ 2) = 4 := by
    rw [← Real.sqrt_mul (by norm_num)]
    rw [show ((2:ℝ) ^ 2 + 2 ^ 2) * ((1:ℝ) ^ 2 + 1 ^ 2) = 4 ^ 2 by norm_num]
    exact Real.sqrt_sq (by norm_num)
  simp only [h1]
  rw [show ((2:ℝ) * 1 + 2 * 1) / 4 = 1 by norm_num, Real.arccos_one]
  ring

/-- C6 (counterexample): the claim asserts `angle` always returns a value in
the half-open interval `[0, 2π)`.  At the nonzero vectors `v1 = (2,2)` and
`v2 = (1,1)` (parallel, same direction, with `v2.y < v1.y`) the function
returns exactly `2π`, which is not `< 2π`; it is also not the clockwise
angle from `v1` to `v2` normalised to `[0, 2π)`, which would be `0`. -/
theorem C6_counterexample :
    angle (2, 2) (1, 1) = 2 * π ∧ ¬ angle (2, 2) (1, 1) < 2 * π := by
  refine ⟨angle_two_two_one_one, ?_⟩
  rw [angle_two_two_one_one]
  exact lt_irrefl _

/-- C6 (amended): for nonzero vectors `v1`, `v2`, `angle v1 v2` lies in the
closed interval `[0, 2π]` (the endpoint `2π` is attainable), its cosine is
the normalised inner product of the two vectors (the arccos identity), and
the disambiguating branch — taken exactly when `v2`'s y-component is below
`v1`'s — places the result in the upper half `[π, 2π]`, the other branch in
the lower half `[0, π]`. -/
theorem C6_theorem (v1 v2 : ℝ × ℝ) (h1 : v1 ≠ (0, 0)) (h2 : v2 ≠ (0, 0)) :
    (0 ≤ angle v1 v2 ∧ angle v1 v2 ≤ 2 * π) ∧
    Real.cos (angle v1 v2) = (v1.1 * v2.1 + v1.2 * v2.2) /
      (Real.sqrt (v1.1 ^ 2 + v1.2 ^ 2) * Real.sqrt (v2.1 ^ 2 + v2.2 ^ 2)) ∧
    (v2.2 < v1.2 → π ≤ angle v1 v2) ∧ (v1.2 ≤ v2.2 → angle v1 v2 ≤ π) := by
  set q := (v1.1 * v2.1 + v1.2 * v2.2) /
    (Real.sqrt (v1.1 ^ 2 + v1.2 ^ 2) * Real.sqrt (v2.1 ^ 2 + v2.2 ^ 2)) with hq
  have hqb : |q| ≤ 1 := abs_inner_div_le_one _ _ _ _
  have hq1 : -1 ≤ q := (abs_le.1 hqb).1
  have hq2 : q ≤ 1 := (abs_le.1 hqb).2
  have harc0 := Real.arccos_nonneg q
  have harcpi := Real.arccos_le_pi q
  by_cases hy : v2.2 < v1.2
  · rw [angle_of_lt v1 v2 hy, ← hq]
    refine ⟨⟨by linarith, by linarith⟩, ?_, fun _ => by linarith, fun hle => absurd hy hle.not_lt⟩
    rw [show π - Real.arccos q + π = 2 * π - Real.arccos q by ring, Real.cos_sub,
      Real.cos_two_pi, Real.sin_two_pi, Real.cos_arccos hq1 hq2]
    ring
  · rw [angle_of_not_lt v1 v2 hy, ← hq]
    have hpi := Real.pi_pos
    exact ⟨⟨harc0, by linarith⟩, Real.cos_arccos hq1 hq2,
      fun hlt => absurd hlt hy, fun _ => harcpi⟩

/-- Witness for C6: the amended theorem applied at the concrete nonzero
vectors `v1 = (0,1)`, `v2 = (1,0)` (the y-branch is taken there). -/
theorem C6_witness :
    ((0:ℝ), (1:ℝ)) ≠ ((0:ℝ), (0:ℝ)) ∧ ((1:ℝ), (0:ℝ)) ≠ ((0:ℝ), (0:ℝ)) ∧
    (0 ≤ angle (0, 1) (1, 0) ∧ angle (0, 1) (1, 0) ≤ 2 * π) ∧
    π ≤ angle (0, 1) (1, 0) := by
  have h1 : ((0:ℝ), (1:ℝ)) ≠ ((0:ℝ), (0:ℝ)) := by norm_num [Prod.ext_iff]
  have h2 : ((1:ℝ), (0:ℝ)) ≠ ((0:ℝ), (0:ℝ)) := by norm_num [Prod.ext_iff]
  have h := C6_theorem (0, 1) (1, 0) h1 h2
  exact ⟨h1, h2, h.1, h.2.2.1 (by norm_num)⟩

/-! ### The shortest-candidate resolver (trenches2.py lines 556-571)

A parallel-trench candidate is the mutable two-element list
`[corner, corner]` of the source; marking it invalid overwrites it with
`(None, None)`.  We model a candidate slot as `Option (Pt × Pt)` (`none`
once invalidated) and the in-place mutation of the shared list by
`List.set`. -/

/-- The body of the resolver: Python's
`for trench_candidate in side:` loop, carried out from index `i` with the
running `shortest_pair` (as an index into the list, `none` for the Python
`None`) and `shortest_distance`.  When a strictly shorter valid candidate
is found, the previous running shortest — and only it — is overwritten
with `none`. -/
def resolveSideAux (side : List (Option (Pt × Pt))) (i : Nat)
    (shortest_idx : Option Nat) (shortest_distance : ℝ) :
    List (Option (Pt × Pt)) :=
  if hlt : i < side.length then
    match side.get ⟨i, hlt⟩ with
    | none => resolveSideAux side (i + 1) shortest_idx shortest_distance
    | some c =>
        if node_distance c.1 c.2 < shortest_distance then
          match shortest_idx with
          | some j =>
              resolveSideAux (side.set j none) (i + 1) (some i)
                (node_distance c.1 c.2)
          | none =>
              resolveSideAux side (i + 1) (some i) (node_distance c.1 c.2)
        else resolveSideAux side (i + 1) shortest_idx shortest_distance
  else side
termination_by side.length - i
decreasing_by
  all_goals try simp only [List.length_set]
  all_goals omega

/-- The per-group resolver (lines 558-571): only groups with more than one
candidate are processed; `shortest_pair = None`, `shortest_distance =
1000000` initially. -/
def resolve_side (side : List (Option (Pt × Pt))) : List (Option (Pt × Pt)) :=
  if 1 < side.length then resolveSideAux side 0 none 1000000 else side

/-- Evaluation helper: `node_distance` at points whose squared distance is a
perfect square. -/
lemma node_distance_eval (x1 y1 x2 y2 c : ℝ) (hc : 0 ≤ c)
    (h : (x2 - x1) ^ 2 + (y2 - y1) ^ 2 = c ^ 2) :
    node_distance ⟨x1, y1⟩ ⟨x2, y2⟩ = c := by
  rw [node_distance]
  simp only
  rw [h, Real.sqrt_sq hc]

/-- C1 (code bug, failing input): three valid candidates on one
(street segment, side) group, of lengths 5, 2 and 8 in that order.  The
resolver's comment says "Find the shortest one and make the others as
invalid", and the claim says only the length-2 candidate survives; but the
loop only invalidates the previous running minimum when a strictly shorter
candidate appears, so the length-8 candidate — encountered after the
minimum — is never invalidated: the result keeps both the length-2 and the
length-8 candidates valid. -/
theorem C1_theorem :
    resolve_side
        [some (⟨0, 0⟩, ⟨5, 0⟩), some (⟨1, 0⟩, ⟨3, 0⟩), some (⟨0, 0⟩, ⟨8, 0⟩)] =
      [none, some (⟨1, 0⟩, ⟨3, 0⟩), some (⟨0, 0⟩, ⟨8, 0⟩)] ∧
    node_distance ⟨1, 0⟩ ⟨3, 0⟩ < node_distance ⟨0, 0⟩ ⟨8, 0⟩ := by
  have h5 : node_distance ⟨0, 0⟩ ⟨5, 0⟩ = 5 :=
    node_distance_eval _ _ _ _ _ (by norm_num) (by norm_num)
  have h2 : node_distance ⟨1, 0⟩ ⟨3, 0⟩ = 2 :=
    node_distance_eval _ _ _ _ _ (by norm_num) (by norm_num)
  have h8 : node_distance ⟨0, 0⟩ ⟨8, 0⟩ = 8 :=
    node_distance_eval _ _ _ _ _ (by norm_num) (by norm_num)
  constructor
  · rw [resolve_side, if_pos (by norm_num)]
    rw [resolveSideAux.eq_def]
    rw [dif_pos (by norm_num)]
    simp only [List.get]
    rw [if_pos (by rw [h5]; norm_num)]
    rw [resolveSideAux.eq_def]
    rw [dif_pos (by norm_num)]
    simp only [List.get]
    rw [if_pos (by rw [h2, h5]; norm_num)]
    rw [resolveSideAux.eq_def]
    rw [dif_pos (by simp)]
    simp only [List.set_cons_zero, List.get]
    rw [if_neg (by rw [h8, h2]; norm_num)]
    rw [resolveSideAux.eq_def]
    rw [dif_neg (by simp)]
  · rw [h2, h8]
    norm_num

/-! ### Trench corners and the straight-street candidate loop
(trenches2.py lines 66-93 and 445-505) -/

/-- `TrenchCorner` from trenches2.py.  The constructor sets
`street_count = 1`; `node_for_adding` is only assigned later (a missing
key is `none`).  Two corners are equal (`__eq__`/`__hash__`) iff their
coordinates are equal; that relation is `sameCoords` below.  The canonical
street identifier `str(sorted([u, v]))` is modelled as the sorted pair. -/
structure TrenchCorner where
  x : ℝ
  y : ℝ
  trench_count : Nat
  u : Nat
  street_count : Nat
  street_ids : List (Nat × Nat)
  node_for_adding : Option Nat

/-- The coordinate equality `TrenchCorner.__eq__`. -/
def sameCoords (a b : TrenchCorner) : Prop := a.x = b.x ∧ a.y = b.y

/-- The point of a corner, for the geometric primitives that consume the
corner dict's `x`/`y` entries. -/
def cornerPt (c : TrenchCorner) : Pt := ⟨c.x, c.y⟩

/-- A list builder for the source's `for ... if cond: out.append(...)`
loops, with a propositional condition. -/
def filterP (p : α → Prop) : List α → List α
  | [] => []
  | x :: xs => if p x then x :: filterP p xs else filterP p xs

/-- Lines 462-465: keep the corners whose owning intersection is `u` or
`v`. -/
def filtered_corners (corners : List TrenchCorner) (u v : Nat) :
    List TrenchCorner :=
  filterP (fun c => c.u = u ∨ c.u = v) corners

/-- Lines 467-472: partition the corners into the two sides of the street
by the sign of `point_distance_from_line`.  Component `1` of the result is
`street_sides[0]` (signed distance `≤ 0`), component `2` is
`street_sides[1]` (signed distance `> 0`). -/
def street_sides (u_node v_node : Pt) (cs : List TrenchCorner) :
    List TrenchCorner × List TrenchCorner :=
  (filterP (fun c => ¬ 0 < point_distance_from_line (u_node, v_node) (cornerPt c)) cs,
   filterP (fun c => 0 < point_distance_from_line (u_node, v_node) (cornerPt c)) cs)

/-- `itertools.combinations(l, 2)` in its enumeration order. -/
def combinations2 : List α → List (α × α)
  | [] => []
  | x :: xs => (xs.map fun y => (x, y)) ++ combinations2 xs

/-- Lines 487-491: the order-independent coordinate key of a candidate
pair (the source hashes the sorted x's and sorted y's; we use the sorted
tuple itself as the key). -/
def trench_candidate_key (a b : TrenchCorner) : ℝ × ℝ × ℝ × ℝ :=
  (min a.x b.x, max a.x b.x, min a.y b.y, max a.y b.y)

/-- Lines 477-505, one side: walk the candidate pairs; a pair of corners on
different intersections is admitted iff its line does not cross the street
segment (`intersection_between_points` is false) and its coordinate key was
not seen before.  Returns the admitted candidates and the grown key set. -/
def collectPairs (u_node v_node : Pt)
    (pairs : List (TrenchCorner × TrenchCorner)) (added : List (ℝ × ℝ × ℝ × ℝ)) :
    List (TrenchCorner × TrenchCorner) × List (ℝ × ℝ × ℝ × ℝ) :=
  match pairs with
  | [] => ([], added)
  | p :: rest =>
      if p.1.u ≠ p.2.u then
        if ¬ intersection_between_points (u_node, v_node) (cornerPt p.1, cornerPt p.2)
            ∧ trench_candidate_key p.1 p.2 ∉ added then
          let r := collectPairs u_node v_node rest (trench_candidate_key p.1 p.2 :: added)
          (p :: r.1, r.2)
        else collectPairs u_node v_node rest added
      else collectPairs u_node v_node rest added

/-- Lines 458-505 for one straight street `(u, v)`: the admitted
parallel-trench candidates per side (side 0 first, with the street's
`added_trenches` key set shared across the two sides). -/
def straight_street_candidates (u_node v_node : Pt) (u v : Nat)
    (corners : List TrenchCorner) :
    List (TrenchCorner × TrenchCorner) × List (TrenchCorner × TrenchCorner) :=
  let fc := filtered_corners corners u v
  let sides := street_sides u_node v_node fc
  let r0 := collectPairs u_node v_node (combinations2 sides.1) []
  let r1 := collectPairs u_node v_node (combinations2 sides.2) r0.2
  (r0.1, r1.1)

/-- Every candidate admitted by `collectPairs` passed the
street-crossing rejection test. -/
lemma collectPairs_not_cross (u_node v_node : Pt)
    (pairs : List (TrenchCorner × TrenchCorner)) (added : List (ℝ × ℝ × ℝ × ℝ))
    (cand : TrenchCorner × TrenchCorner)
    (hc : cand ∈ (collectPairs u_node v_node pairs added).1) :
    ¬ intersection_between_points (u_node, v_node) (cornerPt cand.1, cornerPt cand.2) := by
  induction pairs generalizing added with
  | nil => simp [collectPairs] at hc
  | cons p rest ih =>
      rw [collectPairs] at hc
      by_cases h1 : p.1.u ≠ p.2.u
      · rw [if_pos h1] at hc
        by_cases h2 : ¬ intersection_between_points (u_node, v_node)
            (cornerPt p.1, cornerPt p.2) ∧ trench_candidate_key p.1 p.2 ∉ added
        · rw [if_pos h2] at hc
          rcases List.mem_cons.1 hc with rfl | hmem
          · exact h2.1
          · exact ih _ hmem
        · rw [if_neg h2] at hc
          exact ih _ hc
      · rw [if_neg h1] at hc
        exact ih _ hc

/-- C7: a corner pair is admitted to the straight parallel-trench
candidate set only if the line through the pair does not cross the street
segment between `u` and `v`: every admitted candidate, on either side,
fails `intersection_between_points` against the street. -/
theorem C7_theorem (u_node v_node : Pt) (u v : Nat)
    (corners : List TrenchCorner) (cand : TrenchCorner × TrenchCorner)
    (hc : cand ∈ (straight_street_candidates u_node v_node u v corners).1 ∨
          cand ∈ (straight_street_candidates u_node v_node u v corners).2) :
    ¬ intersection_between_points (u_node, v_node) (cornerPt cand.1, cornerPt cand.2) := by
  rcases hc with hc | hc <;>
    exact collectPairs_not_cross u_node v_node _ _ cand hc

/-- Witness for C7: on the street from `(0,0)` (id 10) to `(4,0)` (id 20)
with one corner at each end on the same side, the pair is admitted
(its line `y = 1/2` is parallel to the street, so the degenerate
intersection test treats it as non-crossing), and the theorem applies. -/
theorem C7_witness :
    ((⟨0, 1/2, 2, 10, 1, [], none⟩, ⟨4, 1/2, 2, 20, 1, [], none⟩) :
        TrenchCorner × TrenchCorner) ∈
      (straight_street_candidates ⟨0, 0⟩ ⟨4, 0⟩ 10 20
        [⟨0, 1/2, 2, 10, 1, [], none⟩, ⟨4, 1/2, 2, 20, 1, [], none⟩]).1 ∧
    ¬ intersection_between_points (⟨0, 0⟩, ⟨4, 0⟩)
      (cornerPt ⟨0, 1/2, 2, 10, 1, [], none⟩, cornerPt ⟨4, 1/2, 2, 20, 1, [], none⟩) := by
  have hmem : ((⟨0, 1/2, 2, 10, 1, [], none⟩, ⟨4, 1/2, 2, 20, 1, [], none⟩) :
      TrenchCorner × TrenchCorner) ∈
      (straight_street_candidates ⟨0, 0⟩ ⟨4, 0⟩ 10 20
        [⟨0, 1/2, 2, 10, 1, [], none⟩, ⟨4, 1/2, 2, 20, 1, [], none⟩]).1 := by
    norm_num [straight_street_candidates, filtered_corners, filterP, street_sides,
      point_distance_from_line, cornerPt, combinations2, collectPairs,
      intersection_between_points, det2, trench_candidate_key]
  exact ⟨hmem, C7_theorem _ _ _ _ _ _ (Or.inl hmem)⟩

/-! ### The curved-street trench walk (trenches2.py lines 157-226 and
507-551).  Python exceptions escaping `get_trench_linestring` (the
`raise` in `get_intersection_point`, `TypeError` on `None` subscripts,
`NameError` on an unbound loop variable) are modelled as `Except.error`. -/

/-- The result dict of `get_trench_linestring` (lines 222-226). -/
structure CurvedTrench where
  u_for_edge : TrenchCorner
  v_for_edge : TrenchCorner
  geometry : List (ℝ × ℝ)
  length : ℝ
  name : String

/-- The nearest-corner search loops (lines 189-196 and 213-219):
`closest` starts as `None` and `shortest_distance` as `10000000`; a corner
strictly closer than the running shortest replaces it. -/
def snapNearestAux (target : Pt) (corners : List TrenchCorner)
    (closest : Option TrenchCorner) (shortest : ℝ) : Option TrenchCorner :=
  match corners with
  | [] => closest
  | c :: rest =>
      if node_distance (cornerPt c) target < shortest then
        snapNearestAux target rest (some c) (node_distance (cornerPt c) target)
      else snapNearestAux target rest closest shortest

def snapNearest (corners : List TrenchCorner) (target : Pt) :
    Option TrenchCorner :=
  snapNearestAux target corners none 10000000

/-- The loop state of the walk over `street['geometry'].coords`
(lines 167-171): the accumulated polyline, the accumulated length, and the
`last_*` variables, plus `closest_u_for_trench`, which the first-segment
branch binds and the return statement reads. -/
structure WalkSt where
  linestring : List (ℝ × ℝ)
  total_road_length : ℝ
  last_road_point : Option (ℝ × ℝ)
  last_trench_point : Option (ℝ × ℝ)
  last_line : Option ((ℝ × ℝ) × (ℝ × ℝ))
  closest_u : Option TrenchCorner

def initWalkSt : WalkSt := ⟨[], 0, none, none, none, none⟩

/-- One iteration of the loop body (lines 172-211) at the coordinate
`sub`.  On the first coordinate only `last_road_point` is set.  Afterwards
the sub-segment is offset with `get_parallel_line_points`; on the first
sub-segment the start is snapped to the nearest `u`-side corner (a `None`
result would crash the source at `new_u_node['x']`), on later sub-segments
the stored previous line is intersected with the new offset line, and a
parallel pair propagates `raise Exception('lines do not intersect')`. -/
def walkStep (u_side_corners : List TrenchCorner) (dfc : ℝ) (side_id : Nat)
    (st : WalkSt) (sub : ℝ × ℝ) : Except String WalkSt :=
  match st.last_road_point with
  | none => .ok { st with last_road_point := some sub }
  | some lrp =>
      let uv := get_parallel_line_points ⟨lrp.1, lrp.2⟩ ⟨sub.1, sub.2⟩ dfc side_id
      let afterStart : Except String (ℝ × ℝ × WalkSt) :=
        match st.last_line with
        | some ll =>
            match get_intersection_point ll ((uv.1.x, uv.1.y), (uv.2.x, uv.2.y)) with
            | none => .error "lines do not intersect"
            | some xy => .ok (round7 xy.1, round7 xy.2, st)
        | none =>
            match snapNearest u_side_corners uv.1 with
            | none => .error "TypeError: NoneType corner"
            | some cu => .ok (cu.x, cu.y, { st with closest_u := some cu })
      match afterStart with
      | .error e => .error e
      | .ok (x, y, st2) =>
          .ok { linestring := st2.linestring ++ [(x, y)]
                total_road_length := st2.total_road_length +
                  Real.sqrt ((x - uv.2.x) ^ 2 + (y - uv.2.y) ^ 2)
                last_road_point := some sub
                last_trench_point := some (uv.2.x, uv.2.y)
                last_line := some ((x, y), (uv.2.x, uv.2.y))
                closest_u := st2.closest_u }

/-- The whole `for sub_x, sub_y in street['geometry'].coords:` loop. -/
def walkAll (u_side_corners : List TrenchCorner) (dfc : ℝ) (side_id : Nat)
    (st : WalkSt) : List (ℝ × ℝ) → Except String WalkSt
  | [] => .ok st
  | c :: rest =>
      match walkStep u_side_corners dfc side_id st c with
      | .error e => .error e
      | .ok st2 => walkAll u_side_corners dfc side_id st2 rest

/-- `get_trench_linestring` (lines 157-226).  After the walk, the final
point is snapped to the `v`-side corner nearest to
`{'x': last_trench_point[0], 'y': last_trench_point[0]}` — the source
reads index `[0]` for BOTH coordinates — and the result dict is built. -/
def get_trench_linestring (u_side_corners v_side_corners : List TrenchCorner)
    (street_geometry : List (ℝ × ℝ)) (dfc : ℝ) (side_id : Nat) :
    Except String CurvedTrench :=
  match walkAll u_side_corners dfc side_id initWalkSt street_geometry with
  | .error e => .error e
  | .ok st =>
      match st.last_trench_point with
      | none => .error "TypeError: NoneType last_trench_point"
      | some ltp =>
          match snapNearest v_side_corners ⟨ltp.1, ltp.1⟩ with
          | none => .error "TypeError: NoneType corner"
          | some cv =>
              match st.closest_u with
              | none => .error "NameError: unbound closest_u_for_trench"
              | some cu =>
                  .ok ⟨cu, cv, st.linestring ++ [(cv.x, cv.y)],
                    st.total_road_length, "Curved Road"⟩

/-- The curved branch of the street loop (lines 507-551): filter this
street's corners by owning intersection, partition each end's corners into
sides using the first/last geometry sub-segment, and build the trench for
`side_id` when both ends have corners on that side (otherwise the source
prints a complaint and produces nothing, modelled as an error).
Indexing `curved_line[1]` / `curved_line[-2]` is modelled with `getD`;
the source would raise `IndexError` on geometries with fewer than two
vertices, which no caller produces. -/
def curved_street_trench (u_node v_node : Pt) (u v : Nat)
    (corners : List TrenchCorner) (geometry : List (ℝ × ℝ)) (side_id : Nat) :
    Except String CurvedTrench :=
  let u_filtered := filterP (fun c => c.u = u) corners
  let v_filtered := filterP (fun c => c.u = v) corners
  let p1 : ℝ × ℝ := geometry[1]?.getD (0, 0)
  let pm2 : ℝ × ℝ := geometry[geometry.length - 2]?.getD (0, 0)
  let segs : (Pt × Pt) × (Pt × Pt) :=
    if geometry.head? = some (u_node.x, u_node.y) then
      ((u_node, ⟨p1.1, p1.2⟩), (⟨pm2.1, pm2.2⟩, v_node))
    else
      ((u_node, ⟨pm2.1, pm2.2⟩), (⟨p1.1, p1.2⟩, v_node))
  let u_side := if side_id = 1 then
      filterP (fun c => 0 < point_distance_from_line segs.1 (cornerPt c)) u_filtered
    else
      filterP (fun c => ¬ 0 < point_distance_from_line segs.1 (cornerPt c)) u_filtered
  let v_side := if side_id = 1 then
      filterP (fun c => 0 < point_distance_from_line segs.2 (cornerPt c)) v_filtered
    else
      filterP (fun c => ¬ 0 < point_distance_from_line segs.2 (cornerPt c)) v_filtered
  if 0 < u_side.length ∧ 0 < v_side.length then
    get_trench_linestring u_side v_side geometry distance_from_center_of_road side_id
  else .error "no side corners"

/-- `round7` is the identity on exact multiples of `10⁻⁷`. -/
lemma round7_eq_self (x : ℝ) (n : ℤ) (h : x * 10 ^ 7 = (n : ℝ)) :
    round7 x = x := by
  rw [round7, h, round_intCast]
  have h10 : ((10 : ℝ) ^ 7) ≠ 0 := by norm_num
  rw [eq_comm, eq_div_iff h10]
  exact h

/-- `get_parallel_line_points` on a west-to-east horizontal segment with
7-decimal endpoints, offset `0.0001`, side `0`: the offset segment is the
parallel at height `+0.0001`. -/
lemma gplp_horiz (a b : ℝ) (hab : a < b) (ha : round7 a = a)
    (hb : round7 b = b) :
    get_parallel_line_points ⟨a, 0⟩ ⟨b, 0⟩ 0.0001 0 =
      (⟨a, 0.0001⟩, ⟨b, 0.0001⟩) := by
  have hba : b - a ≠ 0 := by linarith
  have hrl : Real.sqrt ((a - b) ^ 2 + (0 - (0:ℝ)) ^ 2) = b - a := by
    rw [show (a - b) ^ 2 + (0 - (0:ℝ)) ^ 2 = (b - a) ^ 2 by ring,
      Real.sqrt_sq (by linarith)]
  rw [get_parallel_line_points]
  simp only [hrl]
  rw [if_neg hba, if_neg (by norm_num : ¬ (0 : Nat) = 1),
    if_neg (by norm_num : ¬ (0 : Nat) = 1)]
  have harg1 : (1 - 0.0001 / (b - a)) * a + 0.0001 / (b - a) * (a + (0 - 0)) = a := by
    ring
  have harg2 : (1 - 0.0001 / (b - a)) * 0 + 0.0001 / (b - a) * (0 + -1 * (a - b))
      = 0.0001 := by
    field_simp
  have harg3 : (1 - 0.0001 / (b - a)) * b + 0.0001 / (b - a) * (b + (0 - 0)) = b := by
    ring
  rw [harg1, harg2, harg3, ha, hb,
    round7_eq_self 0.0001 1000 (by norm_num)]

lemma round7_zero : round7 0 = 0 := round7_eq_self 0 0 (by norm_num)

lemma round7_one : round7 1 = 1 := round7_eq_self 1 (10 ^ 7) (by norm_num)

lemma round7_two : round7 2 = 2 := round7_eq_self 2 (2 * 10 ^ 7) (by norm_num)

lemma round7_four : round7 4 = 4 := round7_eq_self 4 (4 * 10 ^ 7) (by norm_num)

/-- If the first offset point snaps to a corner `cu` and the line stored
for the first sub-segment — from `cu` to the first offset's `v`-point — is
parallel to the second offset line (zero determinant,
`get_intersection_point` fails), then `get_trench_linestring` on the
three-vertex geometry propagates the error to its caller. -/
lemma linestring_parallel_error (p0x p0y p1x p1y p2x p2y : ℝ)
    (us vs : List TrenchCorner) (dfc : ℝ) (side_id : Nat) (cu : TrenchCorner)
    (hsnap : snapNearest us
      (get_parallel_line_points ⟨p0x, p0y⟩ ⟨p1x, p1y⟩ dfc side_id).1 = some cu)
    (hdet : get_intersection_point
      ((cu.x, cu.y),
       ((get_parallel_line_points ⟨p0x, p0y⟩ ⟨p1x, p1y⟩ dfc side_id).2.x,
        (get_parallel_line_points ⟨p0x, p0y⟩ ⟨p1x, p1y⟩ dfc side_id).2.y))
      (((get_parallel_line_points ⟨p1x, p1y⟩ ⟨p2x, p2y⟩ dfc side_id).1.x,
        (get_parallel_line_points ⟨p1x, p1y⟩ ⟨p2x, p2y⟩ dfc side_id).1.y),
       ((get_parallel_line_points ⟨p1x, p1y⟩ ⟨p2x, p2y⟩ dfc side_id).2.x,
        (get_parallel_line_points ⟨p1x, p1y⟩ ⟨p2x, p2y⟩ dfc side_id).2.y)) = none) :
    get_trench_linestring us vs [(p0x, p0y), (p1x, p1y), (p2x, p2y)] dfc side_id =
      .error "lines do not intersect" := by
  rw [get_trench_linestring]
  rw [walkAll, walkStep, initWalkSt]
  simp only [walkAll, walkStep, hsnap, hdet]

/-- The first offset point of the C2 geometry snaps to the single
`u`-side corner at `(0, 0.0001)`. -/
lemma c2_snap_eval :
    snapNearest [⟨0, 0.0001, 2, 0, 1, [], none⟩]
      (get_parallel_line_points ⟨0, 0⟩ ⟨1, 0⟩ 0.0001 0).1 =
      some ⟨0, 0.0001, 2, 0, 1, [], none⟩ := by
  rw [gplp_horiz 0 1 (by norm_num) round7_zero round7_one]
  rw [snapNearest, snapNearestAux]
  rw [if_pos]
  · rw [snapNearestAux]
  · rw [show cornerPt ⟨0, 0.0001, 2, 0, 1, [], none⟩ = ⟨0, 0.0001⟩ from rfl]
    rw [node_distance_eval 0 0.0001 0 0.0001 0 le_rfl (by norm_num)]
    norm_num

/-- The miter determinant of the two collinear offset sub-segments of the
C2 geometry is zero, so `get_intersection_point` fails. -/
lemma c2_det_eval :
    get_intersection_point
      (((⟨0, 0.0001, 2, 0, 1, [], none⟩ : TrenchCorner).x,
        (⟨0, 0.0001, 2, 0, 1, [], none⟩ : TrenchCorner).y),
       ((get_parallel_line_points ⟨0, 0⟩ ⟨1, 0⟩ 0.0001 0).2.x,
        (get_parallel_line_points ⟨0, 0⟩ ⟨1, 0⟩ 0.0001 0).2.y))
      (((get_parallel_line_points ⟨1, 0⟩ ⟨2, 0⟩ 0.0001 0).1.x,
        (get_parallel_line_points ⟨1, 0⟩ ⟨2, 0⟩ 0.0001 0).1.y),
       ((get_parallel_line_points ⟨1, 0⟩ ⟨2, 0⟩ 0.0001 0).2.x,
        (get_parallel_line_points ⟨1, 0⟩ ⟨2, 0⟩ 0.0001 0).2.y)) = none := by
  rw [gplp_horiz 0 1 (by norm_num) round7_zero round7_one,
    gplp_horiz 1 2 (by norm_num) round7_one round7_two]
  rw [get_intersection_point]
  norm_num [det2]

/-- C2 (counterexample): a curved street whose geometry is the three
collinear vertices `(0,0), (1,0), (2,0)` — so the two consecutive offset
sub-segments are parallel and the miter determinant is zero — with a
corner available on each end of the side.  The synthesizer does not
recover by nearest-corner snapping: `get_intersection_point`'s
`Exception('lines do not intersect')` escapes `get_trench_linestring`
uncaught, refuting "never propagates the degenerate-geometry condition to
the caller". -/
theorem C2_counterexample :
    get_trench_linestring [⟨0, 0.0001, 2, 0, 1, [], none⟩]
      [⟨2, 0.0001, 2, 1, 1, [], none⟩]
      [(0, 0), (1, 0), (2, 0)] 0.0001 0 =
      Except.error "lines do not intersect" :=
  linestring_parallel_error 0 0 1 0 2 0 _ _ 0.0001 0 _ c2_snap_eval c2_det_eval

/-- C2 (amended): whenever two consecutive offset sub-segments of a curved
street are parallel (zero determinant in the miter-point computation, i.e.
`get_intersection_point` on the stored first line and the next offset line
fails), `get_trench_linestring` does NOT recover: the degenerate-geometry
exception propagates to the caller as an error.  Nearest-corner snapping is
applied only at the very first sub-segment and at the end of the walk, not
as a parallel-lines fallback. -/
theorem C2_theorem (p0x p0y p1x p1y p2x p2y : ℝ)
    (us vs : List TrenchCorner) (dfc : ℝ) (side_id : Nat) (cu : TrenchCorner)
    (hsnap : snapNearest us
      (get_parallel_line_points ⟨p0x, p0y⟩ ⟨p1x, p1y⟩ dfc side_id).1 = some cu)
    (hdet : get_intersection_point
      ((cu.x, cu.y),
       ((get_parallel_line_points ⟨p0x, p0y⟩ ⟨p1x, p1y⟩ dfc side_id).2.x,
        (get_parallel_line_points ⟨p0x, p0y⟩ ⟨p1x, p1y⟩ dfc side_id).2.y))
      (((get_parallel_line_points ⟨p1x, p1y⟩ ⟨p2x, p2y⟩ dfc side_id).1.x,
        (get_parallel_line_points ⟨p1x, p1y⟩ ⟨p2x, p2y⟩ dfc side_id).1.y),
       ((get_parallel_line_points ⟨p1x, p1y⟩ ⟨p2x, p2y⟩ dfc side_id).2.x,
        (get_parallel_line_points ⟨p1x, p1y⟩ ⟨p2x, p2y⟩ dfc side_id).2.y)) = none) :
    get_trench_linestring us vs [(p0x, p0y), (p1x, p1y), (p2x, p2y)] dfc side_id =
      .error "lines do not intersect" :=
  linestring_parallel_error p0x p0y p1x p1y p2x p2y us vs dfc side_id cu hsnap hdet

/-- Witness for C2: the amended theorem applied to the concrete collinear
three-vertex street, with both hypotheses discharged by evaluation. -/
theorem C2_witness :
    snapNearest [⟨0, 0.0001, 2, 0, 1, [], none⟩]
      (get_parallel_line_points ⟨0, 0⟩ ⟨1, 0⟩ 0.0001 0).1 =
      some ⟨0, 0.0001, 2, 0, 1, [], none⟩ ∧
    get_trench_linestring [⟨0, 0.0001, 2, 0, 1, [], none⟩]
      [⟨2, 0.0001, 2, 1, 1, [], none⟩]
      [(0, 0), (1, 0), (2, 0)] 0.0001 0 =
      .error "lines do not intersect" :=
  ⟨c2_snap_eval,
   C2_theorem 0 0 1 0 2 0 _ _ 0.0001 0 _ c2_snap_eval c2_det_eval⟩

/-- A single sufficiently near corner is what the nearest-corner loop
returns. -/
lemma snapNearest_single (c : TrenchCorner) (target : Pt)
    (h : node_distance (cornerPt c) target < 10000000) :
    snapNearest [c] target = some c := by
  rw [snapNearest, snapNearestAux, if_pos h, snapNearestAux]

/-- Offset of the C5 street's second sub-segment `(4,0) → (4,4)` on side 0. -/
lemma gplp_c5b :
    get_parallel_line_points ⟨4, 0⟩ ⟨4, 4⟩ 0.0001 0 =
      (⟨3.9999, 0⟩, ⟨3.9999, 4⟩) := by
  have hrl : Real.sqrt (((4:ℝ) - 4) ^ 2 + ((0:ℝ) - 4) ^ 2) = 4 := by
    rw [show ((4:ℝ) - 4) ^ 2 + ((0:ℝ) - 4) ^ 2 = 4 ^ 2 by norm_num,
      Real.sqrt_sq (by norm_num)]
  simp only [get_parallel_line_points, hrl]
  norm_num [round7, round_eq, Pt.mk.injEq, Prod.mk.injEq]

/-- The miter point of the C5 walk: the stored first line (from the snapped
corner) meets the second offset line at `(3.9999, 0.0001)`. -/
lemma c5_miter :
    get_intersection_point ((0, 0.0001), (4, 0.0001))
      ((3.9999, 0), (3.9999, 4)) = some (3.9999, 0.0001) := by
  rw [get_intersection_point]
  norm_num [det2, Prod.mk.injEq]

/-- The corrupted final-snap target: the source looks for the `v`-side
corner nearest to `(last_trench_point[0], last_trench_point[0])`, here
`(3.9999, 3.9999)`; the corner at `(3.9999, 3.9999)` wins over the corner
at the true offset endpoint `(3.9999, 4)`. -/
lemma c5_snapv :
    snapNearest [⟨3.9999, 4, 2, 1, 1, [], none⟩, ⟨3.9999, 3.9999, 2, 1, 1, [], none⟩]
      ⟨3.9999, 3.9999⟩ = some ⟨3.9999, 3.9999, 2, 1, 1, [], none⟩ := by
  have d1 : node_distance (cornerPt ⟨3.9999, 4, 2, 1, 1, [], none⟩) ⟨3.9999, 3.9999⟩
      = 0.0001 :=
    node_distance_eval _ _ _ _ _ (by norm_num) (by norm_num)
  have d2 : node_distance (cornerPt ⟨3.9999, 3.9999, 2, 1, 1, [], none⟩) ⟨3.9999, 3.9999⟩
      = 0 :=
    node_distance_eval _ _ _ _ _ le_rfl (by norm_num)
  rw [snapNearest, snapNearestAux, if_pos (by rw [d1]; norm_num),
    snapNearestAux, if_pos (by rw [d2, d1]; norm_num), snapNearestAux]

/-- C5 (code bug, failing input): curved street `(0,0) → (4,0) → (4,4)`,
side 0, one corner at `u` and two at `v`.  The final parallel-offset point
of the walk is `(3.9999, 4)`, whose nearest `v`-side corner is
`(3.9999, 4)` (distance 0); but the source builds the snap target as
`{'x': last_trench_point[0], 'y': last_trench_point[0]}` — index `[0]`
twice — i.e. `(3.9999, 3.9999)`, so the corner at `(3.9999, 3.9999)` is
selected instead and becomes the polyline's last point. -/
theorem C5_theorem :
    get_trench_linestring [⟨0, 0.0001, 2, 0, 1, [], none⟩]
      [⟨3.9999, 4, 2, 1, 1, [], none⟩, ⟨3.9999, 3.9999, 2, 1, 1, [], none⟩]
      [(0, 0), (4, 0), (4, 4)] 0.0001 0 =
      Except.ok ⟨⟨0, 0.0001, 2, 0, 1, [], none⟩, ⟨3.9999, 3.9999, 2, 1, 1, [], none⟩,
        [(0, 0.0001), (3.9999, 0.0001), (3.9999, 3.9999)], 7.9999, "Curved Road"⟩ ∧
    node_distance (cornerPt ⟨3.9999, 4, 2, 1, 1, [], none⟩) ⟨3.9999, 4⟩ <
      node_distance (cornerPt ⟨3.9999, 3.9999, 2, 1, 1, [], none⟩) ⟨3.9999, 4⟩ := by
  have hgp1 := gplp_horiz 0 4 (by norm_num) round7_zero round7_four
  have hsnapu : snapNearest [⟨0, 0.0001, 2, 0, 1, [], none⟩] ⟨0, 0.0001⟩ =
      some ⟨0, 0.0001, 2, 0, 1, [], none⟩ :=
    snapNearest_single _ _ (by
      rw [show cornerPt ⟨0, 0.0001, 2, 0, 1, [], none⟩ = ⟨0, 0.0001⟩ from rfl,
        node_distance_eval 0 0.0001 0 0.0001 0 le_rfl (by norm_num)]
      norm_num)
  have hs1 : Real.sqrt (((0:ℝ) - 4) ^ 2 + ((0.0001:ℝ) - 0.0001) ^ 2) = 4 := by
    rw [show ((0:ℝ) - 4) ^ 2 + ((0.0001:ℝ) - 0.0001) ^ 2 = 4 ^ 2 by norm_num,
      Real.sqrt_sq (by norm_num)]
  have hs2 : Real.sqrt (((3.9999:ℝ) - 3.9999) ^ 2 + ((0.0001:ℝ) - 4) ^ 2) = 3.9999 := by
    rw [show ((3.9999:ℝ) - 3.9999) ^ 2 + ((0.0001:ℝ) - 4) ^ 2 = 3.9999 ^ 2 by norm_num,
      Real.sqrt_sq (by norm_num)]
  constructor
  · rw [get_trench_linestring]
    have hwalk : walkAll [⟨0, 0.0001, 2, 0, 1, [], none⟩] 0.0001 0 initWalkSt
        [(0, 0), (4, 0), (4, 4)] =
        .ok ⟨[(0, 0.0001), (3.9999, 0.0001)], 7.9999, some (4, 4), some (3.9999, 4),
          some ((3.9999, 0.0001), (3.9999, 4)), some ⟨0, 0.0001, 2, 0, 1, [], none⟩⟩ := by
      simp only [walkAll, walkStep, initWalkSt, hgp1, gplp_c5b, hsnapu, c5_miter,
        hs1, hs2]
      norm_num [round7, round_eq, Prod.mk.injEq]
      rw [show (1599920001:ℝ) = 39999 ^ 2 by norm_num,
        show (100000000:ℝ) = 10000 ^ 2 by norm_num,
        Real.sqrt_sq (by norm_num : (0:ℝ) ≤ 39999),
        Real.sqrt_sq (by norm_num : (0:ℝ) ≤ 10000)]
      norm_num
    rw [hwalk]
    simp only [c5_snapv]
    norm_num
  · simp only [cornerPt]
    rw [node_distance_eval 3.9999 4 3.9999 4 0 le_rfl (by norm_num),
      node_distance_eval 3.9999 3.9999 3.9999 4 0.0001 (by norm_num) (by norm_num)]
    norm_num

/-- The walk over a two-vertex geometry: one offset, a start snap, no
miter. -/
lemma walk_two_point (us : List TrenchCorner) (cu : TrenchCorner)
    (ax ay bx bby : ℝ) (dfc : ℝ) (side_id : Nat)
    (hsnap : snapNearest us
      (get_parallel_line_points ⟨ax, ay⟩ ⟨bx, bby⟩ dfc side_id).1 = some cu) :
    walkAll us dfc side_id initWalkSt [(ax, ay), (bx, bby)] =
      .ok ⟨[(cu.x, cu.y)],
        0 + Real.sqrt
          ((cu.x - (get_parallel_line_points ⟨ax, ay⟩ ⟨bx, bby⟩ dfc side_id).2.x) ^ 2 +
           (cu.y - (get_parallel_line_points ⟨ax, ay⟩ ⟨bx, bby⟩ dfc side_id).2.y) ^ 2),
        some (bx, bby),
        some ((get_parallel_line_points ⟨ax, ay⟩ ⟨bx, bby⟩ dfc side_id).2.x,
              (get_parallel_line_points ⟨ax, ay⟩ ⟨bx, bby⟩ dfc side_id).2.y),
        some ((cu.x, cu.y),
              ((get_parallel_line_points ⟨ax, ay⟩ ⟨bx, bby⟩ dfc side_id).2.x,
               (get_parallel_line_points ⟨ax, ay⟩ ⟨bx, bby⟩ dfc side_id).2.y)),
        some cu⟩ := by
  simp only [walkAll, walkStep, initWalkSt, hsnap, List.nil_append]

/-- C8 (amended): for a street whose geometry is exactly the two points
`u`, `v` (listed from `u` to `v`), with exactly one corner on the chosen
side at each end — `cu` at `u`, `cv` at `v`, both within the `10^7` snap
radius — and whose straight candidate passes the crossing test, the
curved-path construction and the straight-street path agree: the curved
trench runs from `cu` to `cv` with polyline `[cu, cv]`, and the straight
path admits exactly the candidate `(cu, cv)` on that side and nothing on
the other side. -/
theorem C8_theorem (ux uy vx vy : ℝ) (u v : Nat) (cu cv : TrenchCorner)
    (side_id : Nat) (huv : u ≠ v) (hcu : cu.u = u) (hcv : cv.u = v)
    (hside : (side_id = 0 ∧
        ¬ 0 < point_distance_from_line (⟨ux, uy⟩, ⟨vx, vy⟩) (cornerPt cu) ∧
        ¬ 0 < point_distance_from_line (⟨ux, uy⟩, ⟨vx, vy⟩) (cornerPt cv)) ∨
      (side_id = 1 ∧
        0 < point_distance_from_line (⟨ux, uy⟩, ⟨vx, vy⟩) (cornerPt cu) ∧
        0 < point_distance_from_line (⟨ux, uy⟩, ⟨vx, vy⟩) (cornerPt cv)))
    (hnear1 : node_distance (cornerPt cu)
      (get_parallel_line_points ⟨ux, uy⟩ ⟨vx, vy⟩ distance_from_center_of_road side_id).1
        < 10000000)
    (hnear2 : node_distance (cornerPt cv)
      ⟨(get_parallel_line_points ⟨ux, uy⟩ ⟨vx, vy⟩ distance_from_center_of_road side_id).2.x,
       (get_parallel_line_points ⟨ux, uy⟩ ⟨vx, vy⟩ distance_from_center_of_road side_id).2.x⟩
        < 10000000)
    (hnocross : ¬ intersection_between_points (⟨ux, uy⟩, ⟨vx, vy⟩)
      (cornerPt cu, cornerPt cv)) :
    (∃ ct, curved_street_trench ⟨ux, uy⟩ ⟨vx, vy⟩ u v [cu, cv]
        [(ux, uy), (vx, vy)] side_id = .ok ct ∧
      ct.u_for_edge = cu ∧ ct.v_for_edge = cv ∧
      ct.geometry = [(cu.x, cu.y), (cv.x, cv.y)]) ∧
    straight_street_candidates ⟨ux, uy⟩ ⟨vx, vy⟩ u v [cu, cv] =
      (if side_id = 1 then ([], [(cu, cv)]) else ([(cu, cv)], [])) := by
  have hvu : v ≠ u := fun h => huv h.symm
  have hcu_ne_v : ¬ cu.u = v := by rw [hcu]; exact huv
  have hcv_ne_u : ¬ cv.u = u := by rw [hcv]; exact hvu
  have hsnapu : snapNearest [cu]
      (get_parallel_line_points ⟨ux, uy⟩ ⟨vx, vy⟩ distance_from_center_of_road side_id).1
      = some cu := snapNearest_single _ _ hnear1
  have hsnapv : snapNearest [cv]
      ⟨(get_parallel_line_points ⟨ux, uy⟩ ⟨vx, vy⟩ distance_from_center_of_road side_id).2.x,
       (get_parallel_line_points ⟨ux, uy⟩ ⟨vx, vy⟩ distance_from_center_of_road side_id).2.x⟩
      = some cv := snapNearest_single _ _ hnear2
  have hneq : cu.u ≠ cv.u := by rw [hcu, hcv]; exact huv
  constructor
  · -- curved path
    rw [curved_street_trench]
    rcases hside with ⟨hs0, hpu, hpv⟩ | ⟨hs1, hpu, hpv⟩
    · subst hs0
      have hpu2 := not_lt.1 hpu
      have hpv2 := not_lt.1 hpv
      norm_num [filterP, hcu, hcv, huv, hvu, hpu2, hpv2, List.head?_cons,
        List.getElem?_cons_zero, List.getElem?_cons_succ, Option.getD_some]
      rw [get_trench_linestring, walk_two_point [cu] cu ux uy vx vy _ _ hsnapu]
      simp only [hsnapv]
      exact ⟨_, rfl, rfl, rfl, rfl⟩
    · subst hs1
      norm_num [filterP, hcu, hcv, huv, hvu, hpu, hpv, List.head?_cons,
        List.getElem?_cons_zero, List.getElem?_cons_succ, Option.getD_some]
      rw [get_trench_linestring, walk_two_point [cu] cu ux uy vx vy _ _ hsnapu]
      simp only [hsnapv]
      exact ⟨_, rfl, rfl, rfl, rfl⟩
  · -- straight path
    rw [straight_street_candidates]
    simp only [filtered_corners, filterP, if_pos (Or.inl hcu), if_pos (Or.inr hcv)]
    rcases hside with ⟨hs0, hpu, hpv⟩ | ⟨hs1, hpu, hpv⟩
    · subst hs0
      simp only [street_sides, filterP, if_pos hpu, if_pos hpv, if_neg hpu, if_neg hpv]
      simp only [combinations2, List.map, List.append_nil, List.nil_append]
      simp only [collectPairs]
      rw [if_pos hneq, if_pos ⟨hnocross, by simp⟩]
      norm_num
    · subst hs1
      simp only [street_sides, filterP, if_pos hpu, if_pos hpv, if_neg (not_not_intro hpu),
        if_neg (not_not_intro hpv)]
      simp only [combinations2, List.map, List.append_nil, List.nil_append]
      simp only [collectPairs]
      rw [if_pos hneq, if_pos ⟨hnocross, by simp⟩]
      norm_num

/-- The candidate `(cu, Q1)` of the C8 scenario runs parallel to the
street: the crossing test degenerates and admits it. -/
lemma c8_ib1 :
    ¬ intersection_between_points (⟨0, 0⟩, ⟨4, 0⟩)
      (cornerPt ⟨0, 1, 2, 10, 1, [], none⟩, cornerPt ⟨4, 1, 2, 20, 1, [], none⟩) := by
  rw [intersection_between_points]
  norm_num [det2, cornerPt]

/-- The candidate `(cu, Q2)` of the C8 scenario meets the street's line
behind `u`, outside the segment, so it is admitted as well. -/
lemma c8_ib2 :
    ¬ intersection_between_points (⟨0, 0⟩, ⟨4, 0⟩)
      (cornerPt ⟨0, 1, 2, 10, 1, [], none⟩, cornerPt ⟨4, 3, 2, 20, 1, [], none⟩) := by
  rw [intersection_between_points]
  norm_num [det2, cornerPt, is_between]

/-- C8 (counterexample): street from `(0,0)` (id 10) to `(4,0)` (id 20)
whose geometry is exactly those 2 points, with one side-0 corner `(0,1)`
at `u` and two side-0 corners `(4,1)`, `(4,3)` at `v`.  The straight-street
path admits both candidate pairs; the curved path produces one trench whose
final corner is `(4,3)` — picked against the corrupted snap target `(4,4)`
— so the two code paths do not produce the same trench geometry. -/
theorem C8_counterexample :
    curved_street_trench ⟨0, 0⟩ ⟨4, 0⟩ 10 20
      [⟨0, 1, 2, 10, 1, [], none⟩, ⟨4, 1, 2, 20, 1, [], none⟩,
       ⟨4, 3, 2, 20, 1, [], none⟩] [(0, 0), (4, 0)] 0 =
      Except.ok ⟨⟨0, 1, 2, 10, 1, [], none⟩, ⟨4, 3, 2, 20, 1, [], none⟩,
        [(0, 1), (4, 3)],
        0 + Real.sqrt (((0:ℝ) - 4) ^ 2 + ((1:ℝ) - 0.0001) ^ 2), "Curved Road"⟩ ∧
    (straight_street_candidates ⟨0, 0⟩ ⟨4, 0⟩ 10 20
      [⟨0, 1, 2, 10, 1, [], none⟩, ⟨4, 1, 2, 20, 1, [], none⟩,
       ⟨4, 3, 2, 20, 1, [], none⟩]).1 =
      [(⟨0, 1, 2, 10, 1, [], none⟩, ⟨4, 1, 2, 20, 1, [], none⟩),
       (⟨0, 1, 2, 10, 1, [], none⟩, ⟨4, 3, 2, 20, 1, [], none⟩)] ∧
    ¬ sameCoords ⟨4, 1, 2, 20, 1, [], none⟩ ⟨4, 3, 2, 20, 1, [], none⟩ := by
  have hgp := gplp_horiz 0 4 (by norm_num) round7_zero round7_four
  have hsnapu : snapNearest [⟨0, 1, 2, 10, 1, [], none⟩]
      (get_parallel_line_points ⟨0, 0⟩ ⟨4, 0⟩ 0.0001 0).1 =
      some ⟨0, 1, 2, 10, 1, [], none⟩ := by
    rw [hgp]
    exact snapNearest_single _ _ (by
      rw [show cornerPt ⟨0, 1, 2, 10, 1, [], none⟩ = ⟨0, 1⟩ from rfl,
        node_distance_eval 0 1 0 0.0001 0.9999 (by norm_num) (by norm_num)]
      norm_num)
  have hsnapv : snapNearest [⟨4, 1, 2, 20, 1, [], none⟩, ⟨4, 3, 2, 20, 1, [], none⟩]
      ⟨4, 4⟩ = some ⟨4, 3, 2, 20, 1, [], none⟩ := by
    have d1 : node_distance (cornerPt ⟨4, 1, 2, 20, 1, [], none⟩) ⟨4, 4⟩ = 3 :=
      node_distance_eval _ _ _ _ _ (by norm_num) (by norm_num)
    have d2 : node_distance (cornerPt ⟨4, 3, 2, 20, 1, [], none⟩) ⟨4, 4⟩ = 1 :=
      node_distance_eval _ _ _ _ _ (by norm_num) (by norm_num)
    rw [snapNearest, snapNearestAux, if_pos (by rw [d1]; norm_num),
      snapNearestAux, if_pos (by rw [d2, d1]; norm_num), snapNearestAux]
  have hpdu : ¬ (0:ℝ) < point_distance_from_line (⟨0, 0⟩, ⟨4, 0⟩)
      (cornerPt ⟨0, 1, 2, 10, 1, [], none⟩) := by
    norm_num [point_distance_from_line, cornerPt]
  have hpd1 : ¬ (0:ℝ) < point_distance_from_line (⟨0, 0⟩, ⟨4, 0⟩)
      (cornerPt ⟨4, 1, 2, 20, 1, [], none⟩) := by
    norm_num [point_distance_from_line, cornerPt]
  have hpd2 : ¬ (0:ℝ) < point_distance_from_line (⟨0, 0⟩, ⟨4, 0⟩)
      (cornerPt ⟨4, 3, 2, 20, 1, [], none⟩) := by
    norm_num [point_distance_from_line, cornerPt]
  have hucu : (⟨0, 1, 2, 10, 1, [], none⟩ : TrenchCorner).u = 10 := rfl
  have huq1 : ¬ (⟨4, 1, 2, 20, 1, [], none⟩ : TrenchCorner).u = 10 := by norm_num
  have huq2 : ¬ (⟨4, 3, 2, 20, 1, [], none⟩ : TrenchCorner).u = 10 := by norm_num
  have hvcu : ¬ (⟨0, 1, 2, 10, 1, [], none⟩ : TrenchCorner).u = 20 := by norm_num
  have hvq1 : (⟨4, 1, 2, 20, 1, [], none⟩ : TrenchCorner).u = 20 := rfl
  have hvq2 : (⟨4, 3, 2, 20, 1, [], none⟩ : TrenchCorner).u = 20 := rfl
  refine ⟨?_, ?_, by norm_num [sameCoords]⟩
  · rw [curved_street_trench]
    simp only [filterP, List.head?_cons, List.getElem?_cons_zero, List.getElem?_cons_succ,
      Option.getD_some, List.length_cons, List.length_nil,
      if_pos hucu, if_neg huq1, if_neg huq2, if_neg hvcu, if_pos hvq1, if_pos hvq2]
    simp only [if_pos (rfl : (some ((0:ℝ), (0:ℝ)) : Option (ℝ × ℝ)) = some (0, 0)),
      if_pos (trivial : True), (by norm_num : (0 + 1 + 1 - 2 : Nat) = 0),
      List.getElem?_cons_zero, List.getElem?_cons_succ, Option.getD_some,
      if_neg (by norm_num : ¬ (0 : Nat) = 1),
      if_pos hpdu, if_pos hpd1, if_pos hpd2]
    rw [if_pos (show
      (0:Nat) < ([⟨0, 1, 2, 10, 1, [], none⟩] : List TrenchCorner).length ∧
      (0:Nat) < ([⟨4, 1, 2, 20, 1, [], none⟩, ⟨4, 3, 2, 20, 1, [], none⟩] :
        List TrenchCorner).length by simp)]
    simp only [distance_from_center_of_road]
    rw [get_trench_linestring, walk_two_point _ _ 0 0 4 0 0.0001 0 hsnapu]
    simp only [hgp, hsnapv]
    norm_num
  · have hne1 : (⟨0, 1, 2, 10, 1, [], none⟩ : TrenchCorner).u ≠
        (⟨4, 1, 2, 20, 1, [], none⟩ : TrenchCorner).u := by norm_num
    have hne2 : (⟨0, 1, 2, 10, 1, [], none⟩ : TrenchCorner).u ≠
        (⟨4, 3, 2, 20, 1, [], none⟩ : TrenchCorner).u := by norm_num
    have hne3 : ¬ (⟨4, 1, 2, 20, 1, [], none⟩ : TrenchCorner).u ≠
        (⟨4, 3, 2, 20, 1, [], none⟩ : TrenchCorner).u := by norm_num
    rw [straight_street_candidates]
    simp only [filtered_corners, filterP, street_sides,
      if_pos (Or.inl hucu : (⟨0, 1, 2, 10, 1, [], none⟩ : TrenchCorner).u = 10 ∨
        (⟨0, 1, 2, 10, 1, [], none⟩ : TrenchCorner).u = 20),
      if_pos (Or.inr hvq1 : (⟨4, 1, 2, 20, 1, [], none⟩ : TrenchCorner).u = 10 ∨
        (⟨4, 1, 2, 20, 1, [], none⟩ : TrenchCorner).u = 20),
      if_pos (Or.inr hvq2 : (⟨4, 3, 2, 20, 1, [], none⟩ : TrenchCorner).u = 10 ∨
        (⟨4, 3, 2, 20, 1, [], none⟩ : TrenchCorner).u = 20),
      if_pos hpdu, if_pos hpd1, if_pos hpd2, if_neg hpdu, if_neg hpd1, if_neg hpd2]
    simp only [combinations2, List.map, List.append_nil, List.nil_append,
      List.cons_append]
    simp only [collectPairs]
    rw [if_pos hne1]
    rw [if_pos (⟨c8_ib1, by simp⟩ :
      ¬ intersection_between_points (⟨0, 0⟩, ⟨4, 0⟩)
          (cornerPt ⟨0, 1, 2, 10, 1, [], none⟩, cornerPt ⟨4, 1, 2, 20, 1, [], none⟩) ∧
        trench_candidate_key ⟨0, 1, 2, 10, 1, [], none⟩ ⟨4, 1, 2, 20, 1, [], none⟩ ∉
          ([] : List (ℝ × ℝ × ℝ × ℝ)))]
    rw [if_pos hne2]
    rw [if_pos (⟨c8_ib2, by
        norm_num [trench_candidate_key, List.mem_singleton, Prod.ext_iff]⟩ :
      ¬ intersection_between_points (⟨0, 0⟩, ⟨4, 0⟩)
          (cornerPt ⟨0, 1, 2, 10, 1, [], none⟩, cornerPt ⟨4, 3, 2, 20, 1, [], none⟩) ∧
        trench_candidate_key ⟨0, 1, 2, 10, 1, [], none⟩ ⟨4, 3, 2, 20, 1, [], none⟩ ∉
          [trench_candidate_key ⟨0, 1, 2, 10, 1, [], none⟩ ⟨4, 1, 2, 20, 1, [], none⟩])]
    rw [if_neg hne3]

/-- Witness for C8: the amended theorem applied to the concrete straight
2-point street from `(0,0)` (id 10) to `(4,0)` (id 20) with exactly one
side-0 corner at each end. -/
theorem C8_witness :
    (∃ ct, curved_street_trench ⟨0, 0⟩ ⟨4, 0⟩ 10 20
        [⟨0, 1, 2, 10, 1, [], none⟩, ⟨4, 1, 2, 20, 1, [], none⟩]
        [(0, 0), (4, 0)] 0 = .ok ct ∧
      ct.u_for_edge = ⟨0, 1, 2, 10, 1, [], none⟩ ∧
      ct.v_for_edge = ⟨4, 1, 2, 20, 1, [], none⟩ ∧
      ct.geometry = [((⟨0, 1, 2, 10, 1, [], none⟩ : TrenchCorner).x,
                      (⟨0, 1, 2, 10, 1, [], none⟩ : TrenchCorner).y),
                     ((⟨4, 1, 2, 20, 1, [], none⟩ : TrenchCorner).x,
                      (⟨4, 1, 2, 20, 1, [], none⟩ : TrenchCorner).y)]) ∧
    straight_street_candidates ⟨0, 0⟩ ⟨4, 0⟩ 10 20
        [⟨0, 1, 2, 10, 1, [], none⟩, ⟨4, 1, 2, 20, 1, [], none⟩] =
      (if (0 : Nat) = 1 then
        ([], [(⟨0, 1, 2, 10, 1, [], none⟩, ⟨4, 1, 2, 20, 1, [], none⟩)])
       else ([(⟨0, 1, 2, 10, 1, [], none⟩, ⟨4, 1, 2, 20, 1, [], none⟩)], [])) := by
  have hgp := gplp_horiz 0 4 (by norm_num) round7_zero round7_four
  refine C8_theorem 0 0 4 0 10 20 _ _ 0 (by norm_num) rfl rfl
    (Or.inl ⟨rfl, ?_, ?_⟩) ?_ ?_ ?_
  · norm_num [point_distance_from_line, cornerPt]
  · norm_num [point_distance_from_line, cornerPt]
  · rw [show distance_from_center_of_road = 0.0001 from rfl, hgp]
    rw [show cornerPt ⟨0, 1, 2, 10, 1, [], none⟩ = ⟨0, 1⟩ from rfl,
      node_distance_eval 0 1 0 0.0001 0.9999 (by norm_num) (by norm_num)]
    norm_num
  · rw [show distance_from_center_of_road = 0.0001 from rfl, hgp]
    rw [show cornerPt ⟨4, 1, 2, 20, 1, [], none⟩ = ⟨4, 1⟩ from rfl]
    rw [show ({ x := (Pt.mk 4 0.0001).x, y := (Pt.mk 4 0.0001).x } : Pt) = ⟨4, 4⟩ from rfl,
      node_distance_eval 4 1 4 4 3 (by norm_num) (by norm_num)]
    norm_num
  · exact c8_ib1

/-! ### The edge-merge loops (trenches2.py lines 573-598) -/

/-- An endpoint of a merged edge: the straight and crossing loops pass a
node id (`...['node_for_adding']`, possibly missing), while the curved
loop passes the whole `TrenchCorner` dict via `**curved_trench`. -/
inductive EdgeEnd where
  | byId : Option Nat → EdgeEnd
  | byCorner : TrenchCorner → EdgeEnd

/-- A merged edge record: the keyword arguments of the `G_box.add_edge`
calls.  A keyword absent from a call keeps a default (`false`, `none`).
The f-string names (`f"trench {...}"`) are modelled by the constant
prefix `"trench"`. -/
structure GEdge where
  u_for_edge : EdgeEnd
  v_for_edge : EdgeEnd
  key : Nat
  osmid : Nat
  oneway : Bool
  name : String
  length : ℝ
  trench_crossing : Bool
  geometry : Option (List (ℝ × ℝ))

/-- Lines 574-582: each surviving straight trench candidate (`(None,
None)` pairs were invalidated by the resolver) is merged with the constant
`length=225.493`. -/
def addStraightTrenches (pp : List (Option (TrenchCorner × TrenchCorner))) :
    List GEdge :=
  pp.filterMap (fun o => o.map (fun c =>
    ⟨.byId c.1.node_for_adding, .byId c.2.node_for_adding, 1, 8945376, false,
     "trench", 225.493, false, none⟩))

/-- Lines 584-587: each curved trench is merged with its own computed
`length` and `geometry` (`**curved_trench`). -/
def addCurvedTrenches (cts : List CurvedTrench) : List GEdge :=
  cts.map (fun ct =>
    ⟨.byCorner ct.u_for_edge, .byCorner ct.v_for_edge, 1, 8945376, false,
     ct.name, ct.length, false, some ct.geometry⟩)

/-- Lines 590-598: each road-crossing pair is merged with the constant
`length=225.493` and `trench_crossing=True`. -/
def addCrossingTrenches
    (rc : List ((Nat × Nat) × List (Option Nat × Option Nat))) : List GEdge :=
  (rc.map (fun p => p.2.map (fun cr =>
    (⟨.byId cr.1, .byId cr.2, 1, 8945376, false, "trench", 225.493, true, none⟩ :
      GEdge)))).flatten

/-- C10: every straight parallel-trench edge and every crossing edge
merged into the output graph carries the constant length `225.493`,
irrespective of the distance between its endpoints (the candidate lists
are universally quantified); crossing edges additionally carry
`trench_crossing`; only curved trench edges carry the length computed by
`get_trench_linestring` from their geometry. -/
theorem C10_theorem (pp : List (Option (TrenchCorner × TrenchCorner)))
    (cts : List CurvedTrench)
    (rc : List ((Nat × Nat) × List (Option Nat × Option Nat))) :
    (∀ e ∈ addStraightTrenches pp,
      e.length = 225.493 ∧ e.trench_crossing = false ∧ e.geometry = none) ∧
    (∀ e ∈ addCrossingTrenches rc,
      e.length = 225.493 ∧ e.trench_crossing = true) ∧
    (addCurvedTrenches cts).map (fun e => e.length) =
      cts.map (fun ct => ct.length) := by
  refine ⟨?_, ?_, ?_⟩
  · intro e he
    rw [addStraightTrenches] at he
    rcases List.mem_filterMap.1 he with ⟨o, _, ho⟩
    rcases o with _ | c
    · exact Option.noConfusion ho
    · have ho2 : _ = e := Option.some.inj ho
      subst ho2
      exact ⟨rfl, rfl, rfl⟩
  · intro e he
    rw [addCrossingTrenches] at he
    rcases List.mem_flatten.1 he with ⟨l, hl, hel⟩
    rcases List.mem_map.1 hl with ⟨p, _, hp⟩
    subst hp
    rcases List.mem_map.1 hel with ⟨cr, _, hcr⟩
    subst hcr
    exact ⟨rfl, rfl⟩
  · rw [addCurvedTrenches, List.map_map]
    rfl

/-- Witness for C10: a concrete surviving straight candidate whose
endpoints are at Euclidean distance `5`, yet whose merged edge carries
length `225.493`. -/
theorem C10_witness :
    node_distance (cornerPt ⟨0, 0, 2, 1, 1, [], some 400000001⟩)
      (cornerPt ⟨5, 0, 2, 2, 1, [], some 400000002⟩) = 5 ∧
    (5:ℝ) ≠ 225.493 ∧
    ∀ e ∈ addStraightTrenches
      [some (⟨0, 0, 2, 1, 1, [], some 400000001⟩, ⟨5, 0, 2, 2, 1, [], some 400000002⟩)],
      e.length = 225.493 := by
  refine ⟨?_, by norm_num, ?_⟩
  · rw [show cornerPt ⟨0, 0, 2, 1, 1, [], some 400000001⟩ = ⟨0, 0⟩ from rfl,
      show cornerPt ⟨5, 0, 2, 2, 1, [], some 400000002⟩ = ⟨5, 0⟩ from rfl]
    exact node_distance_eval _ _ _ _ _ (by norm_num) (by norm_num)
  · intro e he
    exact ((C10_theorem
      [some (⟨0, 0, 2, 1, 1, [], some 400000001⟩, ⟨5, 0, 2, 2, 1, [], some 400000002⟩)]
      [] []).1 e he).1

/-! ### The corner synthesizer (trenches2.py lines 229-366)

`get_trench_corners` walks the intersections, sharing the coordinate
index `nodes`, the per-street corner buckets `output_trench_corners`, the
per-street crossing lists `output_road_crossing`, and the id counter
`node_id` across all of them.  Python dicts and sets become association
lists and lists-with-coordinate-equality; `KeyError` and unbound-variable
errors are modelled with `Except.error`. -/

/-- The canonical street identifier `str(sorted([u, v]))`, modelled as
the sorted pair of node ids. -/
def street_id (u v : Nat) : Nat × Nat := if u ≤ v then (u, v) else (v, u)

/-- The shared synthesis state of `get_trench_corners` (lines 230-234). -/
structure TCState where
  nodesIdx : List TrenchCorner
  buckets : List ((Nat × Nat) × List TrenchCorner)
  crossings : List ((Nat × Nat) × List (Option Nat × Option Nat))
  counter : Nat

/-- `node_id = 400000000` (line 234) with empty dicts. -/
def initTCState : TCState := ⟨[], [], [], 400000000⟩

/-- `node in set_of_corners`: membership by `TrenchCorner.__eq__`,
i.e. coordinate equality. -/
def cornerIn (c : TrenchCorner) (l : List TrenchCorner) : Prop :=
  ∃ b ∈ l, sameCoords c b

/-- `output_trench_corners[sid]`.  The source indexes the dict directly;
every such read happens after the bucket was created, so a missing bucket
reads as empty here. -/
def bucketOf (st : TCState) (sid : Nat × Nat) : List TrenchCorner :=
  (st.buckets.lookup sid).getD []

/-- `if sid not in output_trench_corners: output_trench_corners[sid] = set()`. -/
def ensureBucket (st : TCState) (sid : Nat × Nat) : TCState :=
  if (st.buckets.lookup sid).isSome then st
  else { st with buckets := st.buckets ++ [(sid, [])] }

/-- `output_trench_corners[sid].add(node)`: a Python `set.add` keeps the
existing element when a coordinate-equal corner is already present. -/
def bucketAdd (st : TCState) (sid : Nat × Nat) (c : TrenchCorner) : TCState :=
  { st with buckets := st.buckets.map (fun p =>
      if p.1 = sid then (p.1, if cornerIn c p.2 then p.2 else p.2 ++ [c]) else p) }

/-- `nodes[node.__hash__()] = node`: insert or overwrite by coordinate
key. -/
def nodesInsert (st : TCState) (c : TrenchCorner) : TCState :=
  if cornerIn c st.nodesIdx then
    { st with nodesIdx := st.nodesIdx.map (fun b => if sameCoords c b then c else b) }
  else { st with nodesIdx := st.nodesIdx ++ [c] }

/-- `nodes[node.__hash__()]`: lookup by coordinate key (`none` models the
`KeyError`). -/
def nodesFind (st : TCState) (c : TrenchCorner) : Option TrenchCorner :=
  (filterP (fun b => sameCoords c b) st.nodesIdx).head?

/-- Create-if-missing and append, as in lines 307-310 and 333-338. -/
def crossAppend (st : TCState) (sid : Nat × Nat) (pr : Option Nat × Option Nat) :
    TCState :=
  if (st.crossings.lookup sid).isSome then
    { st with crossings := st.crossings.map (fun p =>
        if p.1 = sid then (p.1, p.2 ++ [pr]) else p) }
  else { st with crossings := st.crossings ++ [(sid, [pr])] }

/-- Create-if-missing only (dead-end branch, lines 350-351 and 361-362). -/
def crossEnsure (st : TCState) (sid : Nat × Nat) : TCState :=
  if (st.crossings.lookup sid).isSome then st
  else { st with crossings := st.crossings ++ [(sid, [])] }

/-- Append to an existing crossing list (line 364 indexes the dict
directly, so a missing key raises `KeyError`). -/
def crossAppendExisting (st : TCState) (sid : Nat × Nat)
    (pr : Option Nat × Option Nat) : Except String TCState :=
  if (st.crossings.lookup sid).isSome then
    .ok { st with crossings := st.crossings.map (fun p =>
        if p.1 = sid then (p.1, p.2 ++ [pr]) else p) }
  else .error "KeyError: road crossing street"

/-- The loop-local variables of lines 267-273: `first_radian` with
`first_street_id`, `last_radian` with `last_street_id` (set and read
together in the source), `first_node_id`, `last_node_id`, and
`street_segment_id`. -/
structure LoopVars where
  first : Option (ℝ × (Nat × Nat))
  last : Option (ℝ × (Nat × Nat))
  first_node : Option Nat
  last_node : Option Nat
  street_segment : Option (Nat × Nat)

def initLoopVars : LoopVars := ⟨none, none, none, none, none⟩

/-- The in-loop body (lines 275-320) for the sorted entry
`(radian, v)`.  With a previous street present, the corner on the
bisecting angle is built; the dedup check reads the buckets of the FIRST
and the LAST street (line 297: `output_trench_corners[first_street_id]`,
not the current street's bucket); a fresh corner advances the counter and
is recorded, a duplicate resets `node_id` to the existing corner's
identity via the `nodes` index. -/
def cornerStep (center : Pt) (u : Nat) (st : TCState) (vars : LoopVars)
    (radian : ℝ) (v : Nat) : Except String (TCState × LoopVars) :=
  let sid := street_id u v
  match vars.last with
  | none =>
      let st1 := ensureBucket st sid
      .ok (st1,
        { vars with
            first := some (radian, sid)
            last := some (radian, sid)
            street_segment := some sid })
  | some (last_radian, last_sid) =>
      match vars.first with
      | none => .error "KeyError: first street"
      | some (_, first_sid) =>
          let between_radian := radian - |radian - last_radian| / 2
          let xy := point_on_circle center distance_from_center_of_road between_radian
          let node0 : TrenchCorner := ⟨xy.1, xy.2, 2, u, 1, [sid, last_sid], none⟩
          let st1 := ensureBucket st sid
          let step : Except String (TCState × Nat) :=
            if ¬ cornerIn node0 (bucketOf st1 first_sid) ∧
               ¬ cornerIn node0 (bucketOf st1 last_sid) then
              let nid := st1.counter + 1
              let node := { node0 with node_for_adding := some nid }
              .ok (nodesInsert
                (bucketAdd (bucketAdd { st1 with counter := nid } sid node) last_sid node)
                node, nid)
            else
              match nodesFind st1 node0 with
              | none => .error "KeyError: nodes index"
              | some c0 =>
                  match c0.node_for_adding with
                  | none => .error "KeyError: node_for_adding"
                  | some nid => .ok ({ st1 with counter := nid }, nid)
          match step with
          | .error e => .error e
          | .ok (st2, nid) =>
              match vars.last_node with
              | some ln =>
                  .ok (crossAppend st2 last_sid (some ln, some nid),
                       { vars with
                           last := some (radian, sid)
                           last_node := some nid
                           street_segment := some sid })
              | none =>
                  .ok (st2,
                       { vars with
                           last := some (radian, sid)
                           last_node := some nid
                           first_node := some nid
                           street_segment := some sid })

/-- The wrap-around corner between the last and the first street
(lines 323-338).  It is NOT recorded in the `nodes` index, and on a
duplicate nothing at all happens (no crossing edges are appended). -/
def wrapStep (center : Pt) (u : Nat) (st : TCState) (vars : LoopVars) : TCState :=
  match vars.first, vars.last with
  | some (first_radian0, first_sid), some (last_radian, last_sid) =>
      let first_radian := first_radian0 + 2 * Real.pi
      let between_radian := first_radian - |first_radian - last_radian| / 2
      let xy := point_on_circle center distance_from_center_of_road between_radian
      let node0 : TrenchCorner := ⟨xy.1, xy.2, 2, u, 1, [first_sid, last_sid], none⟩
      if ¬ cornerIn node0 (bucketOf st first_sid) ∧
         ¬ cornerIn node0 (bucketOf st last_sid) then
        let nid := st.counter + 1
        let node := { node0 with node_for_adding := some nid }
        let st2 := bucketAdd (bucketAdd { st with counter := nid } first_sid node)
          last_sid node
        crossAppend (crossAppend st2 last_sid (vars.last_node, some nid))
          first_sid (some nid, vars.first_node)
      else st
  | _, _ => st

/-- The dead-end branch (lines 339-364): two corners at
`first_radian + π/2` and `first_radian + 3π/2`, each added only to the
first street's bucket; the final crossing append reads
`node_for_adding`, which a deduplicated corner never received
(`KeyError`). -/
def deadEndStep (center : Pt) (u : Nat) (st : TCState) (vars : LoopVars) :
    Except String TCState :=
  match vars.first, vars.last, vars.street_segment with
  | some (first_radian, first_sid), some (_, last_sid), some ss =>
      let xy1 := point_on_circle center distance_from_center_of_road
        (first_radian + Real.pi * 0.5)
      let node1_0 : TrenchCorner := ⟨xy1.1, xy1.2, 2, u, 1, [ss], none⟩
      let r1 : TCState × TrenchCorner :=
        if ¬ cornerIn node1_0 (bucketOf st first_sid) ∧
           ¬ cornerIn node1_0 (bucketOf st last_sid) then
          let nid := st.counter + 1
          let node1 := { node1_0 with node_for_adding := some nid }
          (crossEnsure (bucketAdd { st with counter := nid } first_sid node1) first_sid,
           node1)
        else (st, node1_0)
      let xy2 := point_on_circle center distance_from_center_of_road
        (first_radian + Real.pi * 1.5)
      let node2_0 : TrenchCorner := ⟨xy2.1, xy2.2, 2, u, 1, [ss], none⟩
      let r2 : TCState × TrenchCorner :=
        if ¬ cornerIn node2_0 (bucketOf r1.1 first_sid) ∧
           ¬ cornerIn node2_0 (bucketOf r1.1 last_sid) then
          let nid := r1.1.counter + 1
          let node2 := { node2_0 with node_for_adding := some nid }
          (crossEnsure (bucketAdd { r1.1 with counter := nid } first_sid node2) first_sid,
           node2)
        else (r1.1, node2_0)
      match r1.2.node_for_adding, r2.2.node_for_adding with
      | some a, some b => crossAppendExisting r2.1 first_sid (some a, some b)
      | _, _ => .error "KeyError: node_for_adding"
  | _, _, _ => .error "KeyError: first street"

/-- The `for radian in sorted_vs:` loop. -/
def cornerLoop (center : Pt) (u : Nat) (st : TCState) (vars : LoopVars) :
    List (ℝ × Nat) → Except String (TCState × LoopVars)
  | [] => .ok (st, vars)
  | (r, v) :: rest =>
      match cornerStep center u st vars r v with
      | .error e => .error e
      | .ok (st2, vars2) => cornerLoop center u st2 vars2 rest

/-- `neighbors[radian] = v` (line 261): dict insertion, last writer wins
per radian key. -/
def dictInsert (l : List (ℝ × Nat)) (k : ℝ) (v : Nat) : List (ℝ × Nat) :=
  if ∃ p ∈ l, p.1 = k then l.map (fun p => if p.1 = k then (k, v) else p)
  else l ++ [(k, v)]

/-- Lines 238-261: each neighbor's street direction is turned into a
radian via `angle((1,0), direction)` and keyed into the `neighbors`
dict. -/
def buildNeighbors (dirs : List (Nat × (ℝ × ℝ))) : List (ℝ × Nat) :=
  dirs.foldl (fun acc p => dictInsert acc (angle (1, 0) p.2) p.1) []

/-- Insertion sort of the radian-keyed entries: `sorted_vs.sort()`
(line 265) followed by the `neighbors[radian]` lookups. -/
def insertSorted (x : ℝ × Nat) : List (ℝ × Nat) → List (ℝ × Nat)
  | [] => [x]
  | y :: ys => if x.1 ≤ y.1 then x :: y :: ys else y :: insertSorted x ys

def sortPairs : List (ℝ × Nat) → List (ℝ × Nat)
  | [] => []
  | x :: xs => insertSorted x (sortPairs xs)

/-- The per-intersection body of `get_trench_corners` (lines 237-364):
sort the incident streets by radian, run the corner loop, then the
wrap-around corner (`len(sorted_vs) > 1`) or the dead-end "T"
(`len(sorted_vs) == 1`). -/
def processIntersection (center : Pt) (u : Nat) (dirs : List (Nat × (ℝ × ℝ)))
    (st : TCState) : Except String TCState :=
  let sorted_vs := sortPairs (buildNeighbors dirs)
  match cornerLoop center u st initLoopVars sorted_vs with
  | .error e => .error e
  | .ok (st2, vars) =>
      if 1 < sorted_vs.length then .ok (wrapStep center u st2 vars)
      else if sorted_vs.length = 1 then deadEndStep center u st2 vars
      else .ok st2

/-- A road-graph node. -/
structure NetNode where
  id : Nat
  x : ℝ
  y : ℝ

/-- A street edge, with the optional multi-vertex `geometry`. -/
structure NetEdge where
  u : Nat
  v : Nat
  geometry : Option (List (ℝ × ℝ))

/-- The road graph: nodes and undirected street edges in insertion
order. -/
structure Network where
  nodes : List NetNode
  edges : List NetEdge

def findNode (net : Network) (v : Nat) : Option NetNode :=
  net.nodes.find? (fun n => n.id == v)

/-- `network.neighbors(u)`: the other endpoints of `u`'s incident edges,
first occurrence kept. -/
def netNeighbors (net : Network) (u : Nat) : List Nat :=
  (net.edges.filterMap (fun e =>
    if e.u = u then some e.v else if e.v = u then some e.u else none)).foldl
    (fun acc v => if v ∈ acc then acc else acc ++ [v]) []

/-- `network.get_edge_data(u, v)[0]`: the first edge record between the
two nodes. -/
def edgeData (net : Network) (u v : Nat) : Option NetEdge :=
  net.edges.find? (fun e => (e.u == u && e.v == v) || (e.u == v && e.v == u))

/-- Lines 241-260: the direction vector from the intersection toward the
neighbor, or toward the nearest geometry vertex for a curved street.  The
`(0,0)` fallbacks are unreachable on well-formed networks (the source
would raise there). -/
def streetDir (net : Network) (cur : NetNode) (v : Nat) : ℝ × ℝ :=
  match findNode net v, edgeData net cur.id v with
  | some nb, some e =>
      match e.geometry with
      | none => (nb.x - cur.x, nb.y - cur.y)
      | some l =>
          let v1 := if l.head? = some (cur.x, cur.y) then l[1]?.getD (0, 0)
                    else l[l.length - 2]?.getD (0, 0)
          (v1.1 - cur.x, v1.2 - cur.y)
  | _, _ => (0, 0)

def nodeDirs (net : Network) (n : NetNode) : List (Nat × (ℝ × ℝ)) :=
  (netNeighbors net n.id).map (fun v => (v, streetDir net n v))

def gtcLoop (net : Network) (st : TCState) : List NetNode → Except String TCState
  | [] => .ok st
  | n :: rest =>
      match processIntersection ⟨n.x, n.y⟩ n.id (nodeDirs net n) st with
      | .error e => .error e
      | .ok st2 => gtcLoop net st2 rest

/-- `get_trench_corners(network)` (lines 229-366): fold the
per-intersection synthesis over all nodes, starting from the empty
state. -/
def get_trench_corners (net : Network) : Except String TCState :=
  gtcLoop net initTCState net.nodes

/-- All corners recorded in the buckets (`output_trench_corners`) of a
state; a corner shared by two streets appears once per bucket. -/
def allBucketCorners (st : TCState) : List TrenchCorner :=
  (st.buckets.map (fun p => p.2)).flatten

/-- The total number of crossing edges recorded in
`output_road_crossing`. -/
def crossTotal (st : TCState) : Nat :=
  (st.crossings.map (fun p => p.2.length)).sum

/-- Evaluation of `point_on_circle` from cosine/sine values. -/
lemma poc_eval (center : Pt) (r θ cosv sinv : ℝ) (hc : Real.cos θ = cosv)
    (hs : Real.sin θ = sinv) :
    point_on_circle center r θ = (center.x + r * cosv, center.y + r * sinv) := by
  rw [point_on_circle, hc, hs]

lemma cos_half_pi_of_zero : Real.cos ((0:ℝ) + Real.pi * 0.5) = 0 := by
  rw [show (0:ℝ) + Real.pi * 0.5 = Real.pi / 2 by ring]
  exact Real.cos_pi_div_two

lemma sin_half_pi_of_zero : Real.sin ((0:ℝ) + Real.pi * 0.5) = 1 := by
  rw [show (0:ℝ) + Real.pi * 0.5 = Real.pi / 2 by ring]
  exact Real.sin_pi_div_two

lemma cos_three_half_pi_of_zero : Real.cos ((0:ℝ) + Real.pi * 1.5) = 0 := by
  rw [show (0:ℝ) + Real.pi * 1.5 = Real.pi + Real.pi / 2 by ring, Real.cos_add]
  simp

lemma sin_three_half_pi_of_zero : Real.sin ((0:ℝ) + Real.pi * 1.5) = -1 := by
  rw [show (0:ℝ) + Real.pi * 1.5 = Real.pi + Real.pi / 2 by ring, Real.sin_add]
  simp

/-- C3 (counterexample): an intersection of degree 2 whose two incident
streets leave in the same direction (neighbors at `(1,0)` and `(2,0)`,
both at radian `0`).  The radian-keyed `neighbors` dict collapses them to
one entry, so the dead-end branch runs: only 1 crossing edge is produced,
not the 2 the claim requires for a degree-2 intersection. -/
theorem C3_counterexample :
    (processIntersection ⟨0, 0⟩ 0 [(1, (1, 0)), (2, (2, 0))] initTCState).map
      crossTotal = Except.ok 1 ∧
    ([(1, ((1:ℝ), (0:ℝ))), (2, ((2:ℝ), (0:ℝ)))] :
      List (Nat × (ℝ × ℝ))).length = 2 ∧ (1 : Nat) ≠ 2 := by
  refine ⟨?_, rfl, by norm_num⟩
  have ha1 : angle (1, 0) (1, 0) = 0 := angle_east 1 (by norm_num)
  have ha2 : angle (1, 0) (2, 0) = 0 := angle_east 2 (by norm_num)
  have h1 : dictInsert [] (0:ℝ) 1 = [((0:ℝ), 1)] := by simp [dictInsert]
  have h2 : dictInsert [((0:ℝ), 1)] 0 2 = [((0:ℝ), 2)] := by simp [dictInsert]
  have hb : buildNeighbors [(1, (1, 0)), (2, (2, 0))] = [(0, 2)] := by
    simp only [buildNeighbors, List.foldl, ha1, ha2, h1, h2]
  have hsv : sortPairs (buildNeighbors [(1, (1, 0)), (2, (2, 0))]) = [(0, 2)] := by
    rw [hb]
    simp [sortPairs, insertSorted]
  simp only [processIntersection, hsv]
  have hsid : street_id 0 2 = (0, 2) := by simp [street_id]
  have hloop : cornerLoop ⟨0, 0⟩ 0 initTCState initLoopVars [(0, 2)] =
      .ok (⟨[], [((0, 2), [])], [], 400000000⟩,
           ⟨some (0, (0, 2)), some (0, (0, 2)), none, none, some (0, 2)⟩) := by
    simp only [cornerLoop, cornerStep, initLoopVars, hsid, ensureBucket, initTCState]
    norm_num [List.lookup]
  rw [hloop]
  norm_num only []
  rw [if_neg (by norm_num), if_pos (List.length_singleton _)]
  have hyne : -distance_from_center_of_road ≠ distance_from_center_of_road := by
    norm_num [distance_from_center_of_road]
  simp only [deadEndStep, point_on_circle, cos_half_pi_of_zero, sin_half_pi_of_zero,
    cos_three_half_pi_of_zero, sin_three_half_pi_of_zero]
  norm_num [cornerIn, bucketOf, bucketAdd, crossEnsure, crossAppendExisting,
    List.lookup, sameCoords, hyne, crossTotal, Except.map,
    distance_from_center_of_road]

/-- The shape of every corner record the synthesizer produces: a point at
distance `distance_from_center_of_road` from the intersection `center` at
radian `m`, owned by intersection `u`, tagged with the street ids `ss` and
the allocated identity `nid`. -/
def synthCorner (center : Pt) (u : Nat) (ss : List (Nat × Nat)) (m : ℝ)
    (nid : Nat) : TrenchCorner :=
  ⟨center.x + distance_from_center_of_road * Real.cos m,
   center.y + distance_from_center_of_road * Real.sin m, 2, u, 1, ss, some nid⟩

/-- Two corner positions whose radians differ by exactly `π` never share
coordinates. -/
lemma antipodal_coords_ne (cx cy m1 m2 : ℝ) (h : m2 = m1 + π) :
    ¬ (cx + distance_from_center_of_road * Real.cos m2 =
         cx + distance_from_center_of_road * Real.cos m1 ∧
       cy + distance_from_center_of_road * Real.sin m2 =
         cy + distance_from_center_of_road * Real.sin m1) := by
  subst h
  rintro ⟨hx, hy⟩
  rw [Real.cos_add, Real.cos_pi, Real.sin_pi] at hx
  rw [Real.sin_add, Real.cos_pi, Real.sin_pi] at hy
  norm_num [distance_from_center_of_road] at hx hy
  have hc : Real.cos m1 = 0 := by linarith
  have hs : Real.sin m1 = 0 := by linarith
  have h2 := Real.sin_sq_add_cos_sq m1
  rw [hc, hs] at h2
  norm_num at h2

/-- Variant of the antipodal disequality on the bare trigonometric
values. -/
lemma antipodal_cos_sin_ne (m1 m2 : ℝ) (h : m2 = m1 + π) :
    ¬ (Real.cos m2 = Real.cos m1 ∧ Real.sin m2 = Real.sin m1) := by
  subst h
  rintro ⟨hx, hy⟩
  rw [Real.cos_add, Real.cos_pi, Real.sin_pi] at hx
  rw [Real.sin_add, Real.cos_pi, Real.sin_pi] at hy
  have hc : Real.cos m1 = 0 := by nlinarith
  have hs : Real.sin m1 = 0 := by nlinarith
  have h2 := Real.sin_sq_add_cos_sq m1
  rw [hc, hs] at h2
  norm_num at h2

/-- Association-list lookup finding the first key. -/
lemma lookup_cons_self {β : Type} (a : Nat × Nat) (b : β)
    (l : List ((Nat × Nat) × β)) : List.lookup a ((a, b) :: l) = some b := by
  simp [List.lookup]

/-- Association-list lookup skipping a different key. -/
lemma lookup_cons_ne {β : Type} (a k : Nat × Nat) (b : β)
    (l : List ((Nat × Nat) × β)) (h : a ≠ k) :
    List.lookup a ((k, b) :: l) = List.lookup a l := by
  simp [List.lookup, beq_eq_false_iff_ne.2 h]

lemma bucketOf_mk (ni : List TrenchCorner)
    (bks : List ((Nat × Nat) × List TrenchCorner))
    (crs : List ((Nat × Nat) × List (Option Nat × Option Nat))) (cnt : Nat)
    (sid : Nat × Nat) :
    bucketOf ⟨ni, bks, crs, cnt⟩ sid = (List.lookup sid bks).getD [] := rfl

lemma ensureBucket_missing (ni : List TrenchCorner)
    (bks : List ((Nat × Nat) × List TrenchCorner))
    (crs : List ((Nat × Nat) × List (Option Nat × Option Nat))) (cnt : Nat)
    (sid : Nat × Nat) (h : List.lookup sid bks = none) :
    ensureBucket ⟨ni, bks, crs, cnt⟩ sid = ⟨ni, bks ++ [(sid, [])], crs, cnt⟩ := by
  simp [ensureBucket, h]

lemma ensureBucket_present (ni : List TrenchCorner)
    (bks : List ((Nat × Nat) × List TrenchCorner))
    (crs : List ((Nat × Nat) × List (Option Nat × Option Nat))) (cnt : Nat)
    (sid : Nat × Nat) (w : List TrenchCorner) (h : List.lookup sid bks = some w) :
    ensureBucket ⟨ni, bks, crs, cnt⟩ sid = ⟨ni, bks, crs, cnt⟩ := by
  simp [ensureBucket, h]

lemma crossEnsure_missing (ni : List TrenchCorner)
    (bks : List ((Nat × Nat) × List TrenchCorner))
    (crs : List ((Nat × Nat) × List (Option Nat × Option Nat))) (cnt : Nat)
    (sid : Nat × Nat) (h : List.lookup sid crs = none) :
    crossEnsure ⟨ni, bks, crs, cnt⟩ sid = ⟨ni, bks, crs ++ [(sid, [])], cnt⟩ := by
  simp [crossEnsure, h]

lemma ensureBucket_present2 (ni : List TrenchCorner)
    (bks : List ((Nat × Nat) × List TrenchCorner))
    (crs : List ((Nat × Nat) × List (Option Nat × Option Nat))) (cnt : Nat)
    (sid : Nat × Nat) (h : (List.lookup sid bks).isSome = true) :
    ensureBucket ⟨ni, bks, crs, cnt⟩ sid = ⟨ni, bks, crs, cnt⟩ := by
  simp [ensureBucket, h]

lemma crossEnsure_nil (ni : List TrenchCorner)
    (bks : List ((Nat × Nat) × List TrenchCorner)) (cnt : Nat)
    (sid : Nat × Nat) :
    crossEnsure ⟨ni, bks, [], cnt⟩ sid = ⟨ni, bks, [(sid, [])], cnt⟩ := by
  simp [crossEnsure, List.lookup]

lemma crossAppend_nil (ni : List TrenchCorner)
    (bks : List ((Nat × Nat) × List TrenchCorner)) (cnt : Nat)
    (sid : Nat × Nat) (pr : Option Nat × Option Nat) :
    crossAppend ⟨ni, bks, [], cnt⟩ sid pr = ⟨ni, bks, [(sid, [pr])], cnt⟩ := by
  simp [crossAppend, List.lookup]

lemma crossEnsure_present (ni : List TrenchCorner)
    (bks : List ((Nat × Nat) × List TrenchCorner))
    (crs : List ((Nat × Nat) × List (Option Nat × Option Nat))) (cnt : Nat)
    (sid : Nat × Nat) (w : List (Option Nat × Option Nat))
    (h : List.lookup sid crs = some w) :
    crossEnsure ⟨ni, bks, crs, cnt⟩ sid = ⟨ni, bks, crs, cnt⟩ := by
  simp [crossEnsure, h]

lemma crossAppend_missing (ni : List TrenchCorner)
    (bks : List ((Nat × Nat) × List TrenchCorner))
    (crs : List ((Nat × Nat) × List (Option Nat × Option Nat))) (cnt : Nat)
    (sid : Nat × Nat) (pr : Option Nat × Option Nat)
    (h : List.lookup sid crs = none) :
    crossAppend ⟨ni, bks, crs, cnt⟩ sid pr = ⟨ni, bks, crs ++ [(sid, [pr])], cnt⟩ := by
  simp [crossAppend, h]

lemma crossAppend_present (ni : List TrenchCorner)
    (bks : List ((Nat × Nat) × List TrenchCorner))
    (crs : List ((Nat × Nat) × List (Option Nat × Option Nat))) (cnt : Nat)
    (sid : Nat × Nat) (pr : Option Nat × Option Nat)
    (w : List (Option Nat × Option Nat)) (h : List.lookup sid crs = some w) :
    crossAppend ⟨ni, bks, crs, cnt⟩ sid pr =
      ⟨ni, bks, crs.map (fun p => if p.1 = sid then (p.1, p.2 ++ [pr]) else p), cnt⟩ := by
  simp [crossAppend, h]

lemma crossAppendExisting_present (ni : List TrenchCorner)
    (bks : List ((Nat × Nat) × List TrenchCorner))
    (crs : List ((Nat × Nat) × List (Option Nat × Option Nat))) (cnt : Nat)
    (sid : Nat × Nat) (pr : Option Nat × Option Nat)
    (w : List (Option Nat × Option Nat)) (h : List.lookup sid crs = some w) :
    crossAppendExisting ⟨ni, bks, crs, cnt⟩ sid pr =
      .ok ⟨ni, bks, crs.map (fun p => if p.1 = sid then (p.1, p.2 ++ [pr]) else p),
        cnt⟩ := by
  simp [crossAppendExisting, h]

lemma bucketAdd_mk (ni : List TrenchCorner)
    (bks : List ((Nat × Nat) × List TrenchCorner))
    (crs : List ((Nat × Nat) × List (Option Nat × Option Nat))) (cnt : Nat)
    (sid : Nat × Nat) (c : TrenchCorner) :
    bucketAdd ⟨ni, bks, crs, cnt⟩ sid c =
      ⟨ni, bks.map (fun p =>
        if p.1 = sid then (p.1, if cornerIn c p.2 then p.2 else p.2 ++ [c]) else p),
       crs, cnt⟩ := rfl

lemma nodesInsert_fresh (ni : List TrenchCorner)
    (bks : List ((Nat × Nat) × List TrenchCorner))
    (crs : List ((Nat × Nat) × List (Option Nat × Option Nat))) (cnt : Nat)
    (c : TrenchCorner) (h : ¬ cornerIn c ni) :
    nodesInsert ⟨ni, bks, crs, cnt⟩ c = ⟨ni ++ [c], bks, crs, cnt⟩ := by
  simp only [nodesInsert]
  rw [if_neg h]

lemma cornerIn_nil (c : TrenchCorner) : ¬ cornerIn c [] := by simp [cornerIn]

/-- Corner records at antipodal radians around the same center never
compare equal under the coordinate equality. -/
lemma not_sameCoords_antipodal (cx cy m1 m2 : ℝ) (h : m2 = m1 + π)
    (tc1 tc2 u1 u2 sc1 sc2 : Nat) (ss1 ss2 : List (Nat × Nat))
    (n1 n2 : Option Nat) :
    ¬ sameCoords
      ⟨cx + distance_from_center_of_road * Real.cos m2,
       cy + distance_from_center_of_road * Real.sin m2, tc1, u1, sc1, ss1, n1⟩
      ⟨cx + distance_from_center_of_road * Real.cos m1,
       cy + distance_from_center_of_road * Real.sin m1, tc2, u2, sc2, ss2, n2⟩ :=
  fun hs => antipodal_coords_ne cx cy m1 m2 h ⟨hs.1, hs.2⟩

lemma cornerIn_singleton (c b : TrenchCorner) (h : ¬ sameCoords c b) :
    ¬ cornerIn c [b] := by simp [cornerIn, h]

lemma cornerIn_pair (c b1 b2 : TrenchCorner) (h1 : ¬ sameCoords c b1)
    (h2 : ¬ sameCoords c b2) : ¬ cornerIn c [b1, b2] := by
  simp [cornerIn, h1, h2]

lemma not_cornerIn (c : TrenchCorner) (l : List TrenchCorner)
    (h : ∀ b ∈ l, ¬ sameCoords c b) : ¬ cornerIn c l := by
  intro hc
  obtain ⟨b, hb, hs⟩ := hc
  exact h b hb hs

lemma cornerIn_head (c b : TrenchCorner) (l : List TrenchCorner)
    (h : sameCoords c b) : cornerIn c (b :: l) := ⟨b, List.mem_cons_self b l, h⟩

lemma nodesFind_single_hit (b : TrenchCorner)
    (bks : List ((Nat × Nat) × List TrenchCorner))
    (crs : List ((Nat × Nat) × List (Option Nat × Option Nat))) (cnt : Nat)
    (c : TrenchCorner) (h : sameCoords c b) :
    nodesFind ⟨[b], bks, crs, cnt⟩ c = some b := by
  simp [nodesFind, filterP, h]

/-- Every synthesized corner sits at Euclidean distance exactly
`distance_from_center_of_road` from its intersection. -/
lemma node_distance_synthCorner (center : Pt) (u : Nat) (ss : List (Nat × Nat))
    (m : ℝ) (nid : Nat) :
    node_distance (cornerPt (synthCorner center u ss m nid)) center =
      distance_from_center_of_road := by
  rw [node_distance, cornerPt, synthCorner]
  rw [show (center.x - (center.x + distance_from_center_of_road * Real.cos m)) ^ 2 +
        (center.y - (center.y + distance_from_center_of_road * Real.sin m)) ^ 2 =
      distance_from_center_of_road ^ 2 * (Real.sin m ^ 2 + Real.cos m ^ 2) by ring]
  rw [Real.sin_sq_add_cos_sq, mul_one,
    Real.sqrt_sq (by norm_num [distance_from_center_of_road])]

/-- Full evaluation of `processIntersection` on a fresh state for a
degree-1 intersection (single incident street at radian `r1`): the
dead-end branch produces exactly the two antipodal corners, ids
`400000001` and `400000002`, and one crossing edge between them. -/
lemma processIntersection_one (center : Pt) (u v1 : Nat) (d1 : ℝ × ℝ)
    (r1 : ℝ) (h1 : angle (1, 0) d1 = r1) :
    processIntersection center u [(v1, d1)] initTCState =
      .ok ⟨[],
        [(street_id u v1,
          [synthCorner center u [street_id u v1] (r1 + π * 0.5) 400000001,
           synthCorner center u [street_id u v1] (r1 + π * 1.5) 400000002])],
        [(street_id u v1, [(some 400000001, some 400000002)])],
        400000002⟩ := by
  have hb : buildNeighbors [(v1, d1)] = [(r1, v1)] := by
    simp [buildNeighbors, dictInsert, h1]
  have hsv : sortPairs (buildNeighbors [(v1, d1)]) = [(r1, v1)] := by
    rw [hb]
    simp [sortPairs, insertSorted]
  simp only [processIntersection, hsv]
  have hloop : cornerLoop center u initTCState initLoopVars [(r1, v1)] =
      .ok (⟨[], [(street_id u v1, [])], [], 400000000⟩,
           ⟨some (r1, street_id u v1), some (r1, street_id u v1), none, none,
            some (street_id u v1)⟩) := by
    simp only [cornerLoop, cornerStep, initLoopVars, ensureBucket, initTCState]
    norm_num [List.lookup]
  rw [hloop]
  norm_num only []
  rw [if_neg (by norm_num), if_pos (List.length_singleton _)]
  simp only [deadEndStep, point_on_circle]
  have hC1 : ¬ cornerIn
      ⟨center.x + distance_from_center_of_road * Real.cos (r1 + π * 0.5),
       center.y + distance_from_center_of_road * Real.sin (r1 + π * 0.5),
       2, u, 1, [street_id u v1], none⟩
      (bucketOf ⟨[], [(street_id u v1, [])], [], 400000000⟩ (street_id u v1)) := by
    rw [bucketOf_mk, lookup_cons_self]
    exact cornerIn_nil _
  rw [if_pos ⟨hC1, hC1⟩]
  simp only []
  have hadd1 : bucketAdd ⟨[], [(street_id u v1, [])], [], 400000000 + 1⟩
      (street_id u v1)
      ⟨center.x + distance_from_center_of_road * Real.cos (r1 + π * 0.5),
       center.y + distance_from_center_of_road * Real.sin (r1 + π * 0.5),
       2, u, 1, [street_id u v1], some (400000000 + 1)⟩ =
      ⟨[], [(street_id u v1,
        [⟨center.x + distance_from_center_of_road * Real.cos (r1 + π * 0.5),
          center.y + distance_from_center_of_road * Real.sin (r1 + π * 0.5),
          2, u, 1, [street_id u v1], some (400000000 + 1)⟩])], [],
       400000000 + 1⟩ := by
    rw [bucketAdd_mk]
    simp only [List.map_cons, List.map_nil]
    rw [if_pos trivial, if_neg (cornerIn_nil _)]
    rfl
  rw [hadd1]
  rw [crossEnsure_nil]
  have hC2 : ¬ cornerIn
      ⟨center.x + distance_from_center_of_road * Real.cos (r1 + π * 1.5),
       center.y + distance_from_center_of_road * Real.sin (r1 + π * 1.5),
       2, u, 1, [street_id u v1], none⟩
      (bucketOf ⟨[],
        [(street_id u v1,
          [⟨center.x + distance_from_center_of_road * Real.cos (r1 + π * 0.5),
            center.y + distance_from_center_of_road * Real.sin (r1 + π * 0.5),
            2, u, 1, [street_id u v1], some (400000000 + 1)⟩])],
        [(street_id u v1, [])], 400000000 + 1⟩ (street_id u v1)) := by
    rw [bucketOf_mk, lookup_cons_self]
    refine cornerIn_singleton _ _ ?_
    intro hs
    exact antipodal_coords_ne center.x center.y (r1 + π * 0.5) (r1 + π * 1.5)
      (by ring) ⟨hs.1, hs.2⟩
  rw [if_pos ⟨hC2, hC2⟩]
  simp only []
  have hadd2 : bucketAdd ⟨[],
      [(street_id u v1,
        [⟨center.x + distance_from_center_of_road * Real.cos (r1 + π * 0.5),
          center.y + distance_from_center_of_road * Real.sin (r1 + π * 0.5),
          2, u, 1, [street_id u v1], some (400000000 + 1)⟩])],
      [(street_id u v1, [])], 400000000 + 1 + 1⟩ (street_id u v1)
      ⟨center.x + distance_from_center_of_road * Real.cos (r1 + π * 1.5),
       center.y + distance_from_center_of_road * Real.sin (r1 + π * 1.5),
       2, u, 1, [street_id u v1], some (400000000 + 1 + 1)⟩ =
      ⟨[], [(street_id u v1,
        [⟨center.x + distance_from_center_of_road * Real.cos (r1 + π * 0.5),
          center.y + distance_from_center_of_road * Real.sin (r1 + π * 0.5),
          2, u, 1, [street_id u v1], some (400000000 + 1)⟩,
         ⟨center.x + distance_from_center_of_road * Real.cos (r1 + π * 1.5),
          center.y + distance_from_center_of_road * Real.sin (r1 + π * 1.5),
          2, u, 1, [street_id u v1], some (400000000 + 1 + 1)⟩])],
       [(street_id u v1, [])], 400000000 + 1 + 1⟩ := by
    rw [bucketAdd_mk]
    have hni : ¬ cornerIn
        ⟨center.x + distance_from_center_of_road * Real.cos (r1 + π * 1.5),
         center.y + distance_from_center_of_road * Real.sin (r1 + π * 1.5),
         2, u, 1, [street_id u v1], some (400000000 + 1 + 1)⟩
        [⟨center.x + distance_from_center_of_road * Real.cos (r1 + π * 0.5),
          center.y + distance_from_center_of_road * Real.sin (r1 + π * 0.5),
          2, u, 1, [street_id u v1], some (400000000 + 1)⟩] := by
      refine cornerIn_singleton _ _ ?_
      intro hs
      exact antipodal_coords_ne center.x center.y (r1 + π * 0.5) (r1 + π * 1.5)
        (by ring) ⟨hs.1, hs.2⟩
    simp only [List.map_cons, List.map_nil]
    rw [if_pos trivial, if_neg hni]
    rfl
  rw [hadd2]
  rw [crossEnsure_present _ _ _ _ _ _ (lookup_cons_self _ _ _)]
  rw [crossAppendExisting_present _ _ _ _ _ _ _ (lookup_cons_self _ _ _)]
  norm_num [synthCorner]

/-- Full evaluation of `processIntersection` on a fresh state for a
degree-2 intersection whose two incident streets map to distinct radian
keys `r1 < r2` (both in the `[0, 2π)` range `angle` produces): the loop
builds the bisector corner, the wrap-around step builds the antipodal
corner, and exactly 2 crossing edges are recorded. -/
lemma processIntersection_two (center : Pt) (u v1 v2 : Nat) (d1 d2 : ℝ × ℝ)
    (r1 r2 : ℝ) (h1 : angle (1, 0) d1 = r1) (h2 : angle (1, 0) d2 = r2)
    (hlt : r1 < r2) (h0 : 0 ≤ r1) (h2pi : r2 < 2 * π)
    (hv : street_id u v1 ≠ street_id u v2) :
    processIntersection center u [(v1, d1), (v2, d2)] initTCState =
      .ok ⟨[synthCorner center u [street_id u v2, street_id u v1]
              ((r1 + r2) / 2) 400000001],
        [(street_id u v1,
          [synthCorner center u [street_id u v2, street_id u v1]
            ((r1 + r2) / 2) 400000001,
           synthCorner center u [street_id u v1, street_id u v2]
            ((r1 + r2) / 2 + π) 400000002]),
         (street_id u v2,
          [synthCorner center u [street_id u v2, street_id u v1]
            ((r1 + r2) / 2) 400000001,
           synthCorner center u [street_id u v1, street_id u v2]
            ((r1 + r2) / 2 + π) 400000002])],
        [(street_id u v2, [(some 400000001, some 400000002)]),
         (street_id u v1, [(some 400000002, some 400000001)])],
        400000002⟩ := by
  have hd1 : dictInsert [] r1 v1 = [(r1, v1)] := by simp [dictInsert]
  have hd2 : dictInsert [(r1, v1)] r2 v2 = [(r1, v1), (r2, v2)] := by
    rw [dictInsert, if_neg]
    · rfl
    · intro hex
      obtain ⟨p, hp, he⟩ := hex
      simp only [List.mem_singleton] at hp
      subst hp
      exact hlt.ne he
  have hb : buildNeighbors [(v1, d1), (v2, d2)] = [(r1, v1), (r2, v2)] := by
    simp only [buildNeighbors, List.foldl, h1, h2, hd1, hd2]
  have hsv : sortPairs (buildNeighbors [(v1, d1), (v2, d2)]) =
      [(r1, v1), (r2, v2)] := by
    rw [hb]
    simp [sortPairs, insertSorted, hlt.le]
  simp only [processIntersection, hsv]
  have hstep1 : cornerStep center u initTCState initLoopVars r1 v1 =
      .ok (⟨[], [(street_id u v1, [])], [], 400000000⟩,
        ⟨some (r1, street_id u v1), some (r1, street_id u v1), none, none,
         some (street_id u v1)⟩) := by
    simp only [cornerStep, initLoopVars, initTCState]
    rw [ensureBucket_missing [] [] [] 400000000 (street_id u v1) rfl]
    rfl
  have hstep2 : cornerStep center u ⟨[], [(street_id u v1, [])], [], 400000000⟩
      ⟨some (r1, street_id u v1), some (r1, street_id u v1), none, none,
       some (street_id u v1)⟩ r2 v2 =
      .ok (⟨[⟨center.x + distance_from_center_of_road * Real.cos ((r1 + r2) / 2),
             center.y + distance_from_center_of_road * Real.sin ((r1 + r2) / 2),
             2, u, 1, [street_id u v2, street_id u v1], some (400000000 + 1)⟩],
        [(street_id u v1,
          [⟨center.x + distance_from_center_of_road * Real.cos ((r1 + r2) / 2),
            center.y + distance_from_center_of_road * Real.sin ((r1 + r2) / 2),
            2, u, 1, [street_id u v2, street_id u v1], some (400000000 + 1)⟩]),
         (street_id u v2,
          [⟨center.x + distance_from_center_of_road * Real.cos ((r1 + r2) / 2),
            center.y + distance_from_center_of_road * Real.sin ((r1 + r2) / 2),
            2, u, 1, [street_id u v2, street_id u v1], some (400000000 + 1)⟩])],
        [], 400000000 + 1⟩,
        ⟨some (r1, street_id u v1), some (r2, street_id u v2),
         some (400000000 + 1), some (400000000 + 1), some (street_id u v2)⟩) := by
    simp only [cornerStep, point_on_circle]
    rw [abs_of_nonneg (show (0:ℝ) ≤ r2 - r1 by linarith)]
    rw [show r2 - (r2 - r1) / 2 = (r1 + r2) / 2 by ring]
    rw [ensureBucket_missing [] [(street_id u v1, [])] [] 400000000
      (street_id u v2)
      (by rw [lookup_cons_ne _ _ _ _ (Ne.symm hv)]; rfl)]
    simp only [List.singleton_append]
    have hfresh : ¬ cornerIn
        ⟨center.x + distance_from_center_of_road * Real.cos ((r1 + r2) / 2),
         center.y + distance_from_center_of_road * Real.sin ((r1 + r2) / 2),
         2, u, 1, [street_id u v2, street_id u v1], none⟩
        (bucketOf ⟨[], [(street_id u v1, []), (street_id u v2, [])], [],
          400000000⟩ (street_id u v1)) := by
      rw [bucketOf_mk, lookup_cons_self]
      exact cornerIn_nil _
    rw [if_pos ⟨hfresh, hfresh⟩]
    simp only []
    have haddA : bucketAdd ⟨[], [(street_id u v1, []), (street_id u v2, [])], [],
        400000000 + 1⟩ (street_id u v2)
        ⟨center.x + distance_from_center_of_road * Real.cos ((r1 + r2) / 2),
         center.y + distance_from_center_of_road * Real.sin ((r1 + r2) / 2),
         2, u, 1, [street_id u v2, street_id u v1], some (400000000 + 1)⟩ =
        ⟨[], [(street_id u v1, []),
          (street_id u v2,
           [⟨center.x + distance_from_center_of_road * Real.cos ((r1 + r2) / 2),
             center.y + distance_from_center_of_road * Real.sin ((r1 + r2) / 2),
             2, u, 1, [street_id u v2, street_id u v1], some (400000000 + 1)⟩])],
         [], 400000000 + 1⟩ := by
      rw [bucketAdd_mk]
      simp only [List.map_cons, List.map_nil]
      rw [if_neg hv, if_pos trivial, if_neg (cornerIn_nil _)]
      rfl
    rw [haddA]
    have haddB : bucketAdd ⟨[], [(street_id u v1, []),
        (street_id u v2,
         [⟨center.x + distance_from_center_of_road * Real.cos ((r1 + r2) / 2),
           center.y + distance_from_center_of_road * Real.sin ((r1 + r2) / 2),
           2, u, 1, [street_id u v2, street_id u v1], some (400000000 + 1)⟩])],
        [], 400000000 + 1⟩ (street_id u v1)
        ⟨center.x + distance_from_center_of_road * Real.cos ((r1 + r2) / 2),
         center.y + distance_from_center_of_road * Real.sin ((r1 + r2) / 2),
         2, u, 1, [street_id u v2, street_id u v1], some (400000000 + 1)⟩ =
        ⟨[], [(street_id u v1,
          [⟨center.x + distance_from_center_of_road * Real.cos ((r1 + r2) / 2),
            center.y + distance_from_center_of_road * Real.sin ((r1 + r2) / 2),
            2, u, 1, [street_id u v2, street_id u v1], some (400000000 + 1)⟩]),
          (street_id u v2,
           [⟨center.x + distance_from_center_of_road * Real.cos ((r1 + r2) / 2),
             center.y + distance_from_center_of_road * Real.sin ((r1 + r2) / 2),
             2, u, 1, [street_id u v2, street_id u v1], some (400000000 + 1)⟩])],
         [], 400000000 + 1⟩ := by
      rw [bucketAdd_mk]
      simp only [List.map_cons, List.map_nil]
      rw [if_pos trivial, if_neg (Ne.symm hv), if_neg (cornerIn_nil _)]
      rfl
    rw [haddB]
    rw [nodesInsert_fresh _ _ _ _ _ (cornerIn_nil _)]
    rfl
  have hloop : cornerLoop center u initTCState initLoopVars
      [(r1, v1), (r2, v2)] =
      .ok (⟨[⟨center.x + distance_from_center_of_road * Real.cos ((r1 + r2) / 2),
             center.y + distance_from_center_of_road * Real.sin ((r1 + r2) / 2),
             2, u, 1, [street_id u v2, street_id u v1], some (400000000 + 1)⟩],
        [(street_id u v1,
          [⟨center.x + distance_from_center_of_road * Real.cos ((r1 + r2) / 2),
            center.y + distance_from_center_of_road * Real.sin ((r1 + r2) / 2),
            2, u, 1, [street_id u v2, street_id u v1], some (400000000 + 1)⟩]),
         (street_id u v2,
          [⟨center.x + distance_from_center_of_road * Real.cos ((r1 + r2) / 2),
            center.y + distance_from_center_of_road * Real.sin ((r1 + r2) / 2),
            2, u, 1, [street_id u v2, street_id u v1], some (400000000 + 1)⟩])],
        [], 400000000 + 1⟩,
        ⟨some (r1, street_id u v1), some (r2, street_id u v2),
         some (400000000 + 1), some (400000000 + 1), some (street_id u v2)⟩) := by
    simp only [cornerLoop, hstep1]
    simp only [hstep2]
  rw [hloop]
  norm_num only []
  rw [if_pos (show 1 < ([(r1, v1), (r2, v2)] : List (ℝ × Nat)).length by
    norm_num)]
  simp only [wrapStep, point_on_circle]
  rw [abs_of_nonneg (show (0:ℝ) ≤ r1 + 2 * π - r2 by linarith)]
  rw [show r1 + 2 * π - (r1 + 2 * π - r2) / 2 = (r1 + r2) / 2 + π by ring]
  have hfw1 : ¬ cornerIn
      ⟨center.x + distance_from_center_of_road * Real.cos ((r1 + r2) / 2 + π),
       center.y + distance_from_center_of_road * Real.sin ((r1 + r2) / 2 + π),
       2, u, 1, [street_id u v1, street_id u v2], none⟩
      (bucketOf ⟨[⟨center.x + distance_from_center_of_road *
            Real.cos ((r1 + r2) / 2),
          center.y + distance_from_center_of_road * Real.sin ((r1 + r2) / 2),
          2, u, 1, [street_id u v2, street_id u v1], some 400000001⟩],
        [(street_id u v1,
          [⟨center.x + distance_from_center_of_road * Real.cos ((r1 + r2) / 2),
            center.y + distance_from_center_of_road * Real.sin ((r1 + r2) / 2),
            2, u, 1, [street_id u v2, street_id u v1], some 400000001⟩]),
         (street_id u v2,
          [⟨center.x + distance_from_center_of_road * Real.cos ((r1 + r2) / 2),
            center.y + distance_from_center_of_road * Real.sin ((r1 + r2) / 2),
            2, u, 1, [street_id u v2, street_id u v1], some 400000001⟩])],
        [], 400000001⟩ (street_id u v1)) := by
    rw [bucketOf_mk, lookup_cons_self]
    exact cornerIn_singleton _ _
      (not_sameCoords_antipodal center.x center.y ((r1 + r2) / 2)
        ((r1 + r2) / 2 + π) rfl _ _ _ _ _ _ _ _ _ _)
  have hfw2 : ¬ cornerIn
      ⟨center.x + distance_from_center_of_road * Real.cos ((r1 + r2) / 2 + π),
       center.y + distance_from_center_of_road * Real.sin ((r1 + r2) / 2 + π),
       2, u, 1, [street_id u v1, street_id u v2], none⟩
      (bucketOf ⟨[⟨center.x + distance_from_center_of_road *
            Real.cos ((r1 + r2) / 2),
          center.y + distance_from_center_of_road * Real.sin ((r1 + r2) / 2),
          2, u, 1, [street_id u v2, street_id u v1], some 400000001⟩],
        [(street_id u v1,
          [⟨center.x + distance_from_center_of_road * Real.cos ((r1 + r2) / 2),
            center.y + distance_from_center_of_road * Real.sin ((r1 + r2) / 2),
            2, u, 1, [street_id u v2, street_id u v1], some 400000001⟩]),
         (street_id u v2,
          [⟨center.x + distance_from_center_of_road * Real.cos ((r1 + r2) / 2),
            center.y + distance_from_center_of_road * Real.sin ((r1 + r2) / 2),
            2, u, 1, [street_id u v2, street_id u v1], some 400000001⟩])],
        [], 400000001⟩ (street_id u v2)) := by
    rw [bucketOf_mk, lookup_cons_ne _ _ _ _ (Ne.symm hv), lookup_cons_self]
    exact cornerIn_singleton _ _
      (not_sameCoords_antipodal center.x center.y ((r1 + r2) / 2)
        ((r1 + r2) / 2 + π) rfl _ _ _ _ _ _ _ _ _ _)
  rw [if_pos ⟨hfw1, hfw2⟩]
  have haddC : bucketAdd ⟨[⟨center.x + distance_from_center_of_road *
          Real.cos ((r1 + r2) / 2),
        center.y + distance_from_center_of_road * Real.sin ((r1 + r2) / 2),
        2, u, 1, [street_id u v2, street_id u v1], some 400000001⟩],
      [(street_id u v1,
        [⟨center.x + distance_from_center_of_road * Real.cos ((r1 + r2) / 2),
          center.y + distance_from_center_of_road * Real.sin ((r1 + r2) / 2),
          2, u, 1, [street_id u v2, street_id u v1], some 400000001⟩]),
       (street_id u v2,
        [⟨center.x + distance_from_center_of_road * Real.cos ((r1 + r2) / 2),
          center.y + distance_from_center_of_road * Real.sin ((r1 + r2) / 2),
          2, u, 1, [street_id u v2, street_id u v1], some 400000001⟩])],
      [], 400000001 + 1⟩ (street_id u v1)
      ⟨center.x + distance_from_center_of_road * Real.cos ((r1 + r2) / 2 + π),
       center.y + distance_from_center_of_road * Real.sin ((r1 + r2) / 2 + π),
       2, u, 1, [street_id u v1, street_id u v2], some (400000001 + 1)⟩ =
      ⟨[⟨center.x + distance_from_center_of_road * Real.cos ((r1 + r2) / 2),
         center.y + distance_from_center_of_road * Real.sin ((r1 + r2) / 2),
         2, u, 1, [street_id u v2, street_id u v1], some 400000001⟩],
       [(street_id u v1,
         [⟨center.x + distance_from_center_of_road * Real.cos ((r1 + r2) / 2),
           center.y + distance_from_center_of_road * Real.sin ((r1 + r2) / 2),
           2, u, 1, [street_id u v2, street_id u v1], some 400000001⟩,
          ⟨center.x + distance_from_center_of_road * Real.cos ((r1 + r2) / 2 + π),
           center.y + distance_from_center_of_road * Real.sin ((r1 + r2) / 2 + π),
           2, u, 1, [street_id u v1, street_id u v2], some (400000001 + 1)⟩]),
        (street_id u v2,
         [⟨center.x + distance_from_center_of_road * Real.cos ((r1 + r2) / 2),
           center.y + distance_from_center_of_road * Real.sin ((r1 + r2) / 2),
           2, u, 1, [street_id u v2, street_id u v1], some 400000001⟩])],
       [], 400000001 + 1⟩ := by
    rw [bucketAdd_mk]
    simp only [List.map_cons, List.map_nil]
    rw [if_pos trivial, if_neg (Ne.symm hv),
      if_neg (cornerIn_singleton _ _
        (not_sameCoords_antipodal center.x center.y ((r1 + r2) / 2)
          ((r1 + r2) / 2 + π) rfl _ _ _ _ _ _ _ _ _ _))]
    rfl
  rw [haddC]
  have haddD : bucketAdd ⟨[⟨center.x + distance_from_center_of_road *
          Real.cos ((r1 + r2) / 2),
        center.y + distance_from_center_of_road * Real.sin ((r1 + r2) / 2),
        2, u, 1, [street_id u v2, street_id u v1], some 400000001⟩],
      [(street_id u v1,
        [⟨center.x + distance_from_center_of_road * Real.cos ((r1 + r2) / 2),
          center.y + distance_from_center_of_road * Real.sin ((r1 + r2) / 2),
          2, u, 1, [street_id u v2, street_id u v1], some 400000001⟩,
         ⟨center.x + distance_from_center_of_road * Real.cos ((r1 + r2) / 2 + π),
          center.y + distance_from_center_of_road * Real.sin ((r1 + r2) / 2 + π),
          2, u, 1, [street_id u v1, street_id u v2], some (400000001 + 1)⟩]),
       (street_id u v2,
        [⟨center.x + distance_from_center_of_road * Real.cos ((r1 + r2) / 2),
          center.y + distance_from_center_of_road * Real.sin ((r1 + r2) / 2),
          2, u, 1, [street_id u v2, street_id u v1], some 400000001⟩])],
      [], 400000001 + 1⟩ (street_id u v2)
      ⟨center.x + distance_from_center_of_road * Real.cos ((r1 + r2) / 2 + π),
       center.y + distance_from_center_of_road * Real.sin ((r1 + r2) / 2 + π),
       2, u, 1, [street_id u v1, street_id u v2], some (400000001 + 1)⟩ =
      ⟨[⟨center.x + distance_from_center_of_road * Real.cos ((r1 + r2) / 2),
         center.y + distance_from_center_of_road * Real.sin ((r1 + r2) / 2),
         2, u, 1, [street_id u v2, street_id u v1], some 400000001⟩],
       [(street_id u v1,
         [⟨center.x + distance_from_center_of_road * Real.cos ((r1 + r2) / 2),
           center.y + distance_from_center_of_road * Real.sin ((r1 + r2) / 2),
           2, u, 1, [street_id u v2, street_id u v1], some 400000001⟩,
          ⟨center.x + distance_from_center_of_road * Real.cos ((r1 + r2) / 2 + π),
           center.y + distance_from_center_of_road * Real.sin ((r1 + r2) / 2 + π),
           2, u, 1, [street_id u v1, street_id u v2], some (400000001 + 1)⟩]),
        (street_id u v2,
         [⟨center.x + distance_from_center_of_road * Real.cos ((r1 + r2) / 2),
           center.y + distance_from_center_of_road * Real.sin ((r1 + r2) / 2),
           2, u, 1, [street_id u v2, street_id u v1], some 400000001⟩,
          ⟨center.x + distance_from_center_of_road * Real.cos ((r1 + r2) / 2 + π),
           center.y + distance_from_center_of_road * Real.sin ((r1 + r2) / 2 + π),
           2, u, 1, [street_id u v1, street_id u v2], some (400000001 + 1)⟩])],
       [], 400000001 + 1⟩ := by
    rw [bucketAdd_mk]
    simp only [List.map_cons, List.map_nil]
    rw [if_neg hv, if_pos trivial,
      if_neg (cornerIn_singleton _ _
        (not_sameCoords_antipodal center.x center.y ((r1 + r2) / 2)
          ((r1 + r2) / 2 + π) rfl _ _ _ _ _ _ _ _ _ _))]
    rfl
  rw [haddD]
  rw [crossAppend_nil]
  rw [crossAppend_missing]
  · norm_num [synthCorner]
  · rw [lookup_cons_ne _ _ _ _ hv]
    rfl

/-- C3: as stated, the per-intersection count invariant is refuted by
`C3_counterexample` (the radian-keyed `neighbors` dict collapses streets
with equal radians).  Amended form, proved here on a fresh state: when the
incident streets map to distinct radian keys, a degree-2 intersection
yields exactly 2 distinct corners (each at Euclidean distance
`distance_from_center_of_road` from the intersection) and exactly 2
crossing edges, and a degree-1 intersection yields exactly 2 corners,
antipodal (π apart) about the intersection, and exactly 1 crossing
edge. -/
theorem C3_theorem (center : Pt) (u v1 v2 : Nat) (d1 d2 : ℝ × ℝ)
    (r1 r2 : ℝ) (h1 : angle (1, 0) d1 = r1) (h2 : angle (1, 0) d2 = r2)
    (hlt : r1 < r2) (h0 : 0 ≤ r1) (h2pi : r2 < 2 * π)
    (hv : street_id u v1 ≠ street_id u v2) :
    (∃ st c1 c2,
      processIntersection center u [(v1, d1), (v2, d2)] initTCState = .ok st ∧
      allBucketCorners st = [c1, c2, c1, c2] ∧
      ¬ sameCoords c1 c2 ∧
      node_distance (cornerPt c1) center = distance_from_center_of_road ∧
      node_distance (cornerPt c2) center = distance_from_center_of_road ∧
      crossTotal st = 2) ∧
    (∀ w : Nat, ∃ st1 e1 e2,
      processIntersection center u [(w, d1)] initTCState = .ok st1 ∧
      allBucketCorners st1 = [e1, e2] ∧
      e1.x - center.x = -(e2.x - center.x) ∧
      e1.y - center.y = -(e2.y - center.y) ∧
      node_distance (cornerPt e1) center = distance_from_center_of_road ∧
      node_distance (cornerPt e2) center = distance_from_center_of_road ∧
      crossTotal st1 = 1) := by
  constructor
  · refine ⟨_,
      synthCorner center u [street_id u v2, street_id u v1]
        ((r1 + r2) / 2) 400000001,
      synthCorner center u [street_id u v1, street_id u v2]
        ((r1 + r2) / 2 + π) 400000002,
      processIntersection_two center u v1 v2 d1 d2 r1 r2 h1 h2 hlt h0 h2pi hv,
      ?_, ?_, ?_, ?_, ?_⟩
    · simp [allBucketCorners]
    · intro hs
      exact not_sameCoords_antipodal center.x center.y ((r1 + r2) / 2)
        ((r1 + r2) / 2 + π) rfl 2 2 u u 1 1 _ _ _ _ ⟨hs.1.symm, hs.2.symm⟩
    · exact node_distance_synthCorner center u _ _ _
    · exact node_distance_synthCorner center u _ _ _
    · simp [crossTotal]
  · intro w
    refine ⟨_,
      synthCorner center u [street_id u w] (r1 + π * 0.5) 400000001,
      synthCorner center u [street_id u w] (r1 + π * 1.5) 400000002,
      processIntersection_one center u w d1 r1 h1,
      ?_, ?_, ?_, ?_, ?_, ?_⟩
    · simp [allBucketCorners]
    · simp only [synthCorner]
      have hcos : Real.cos (r1 + π * 1.5) = -Real.cos (r1 + π * 0.5) := by
        rw [show r1 + π * 1.5 = r1 + π * 0.5 + π by ring,
          Real.cos_add (r1 + π * 0.5) π, Real.cos_pi, Real.sin_pi]
        ring
      rw [hcos]
      ring
    · simp only [synthCorner]
      have hsin : Real.sin (r1 + π * 1.5) = -Real.sin (r1 + π * 0.5) := by
        rw [show r1 + π * 1.5 = r1 + π * 0.5 + π by ring,
          Real.sin_add (r1 + π * 0.5) π, Real.cos_pi, Real.sin_pi]
        ring
      rw [hsin]
      ring
    · exact node_distance_synthCorner center u _ _ _
    · exact node_distance_synthCorner center u _ _ _
    · simp [crossTotal]

/-- Witness for `C3_theorem`: the intersection `(0,0)` with streets east
(radian `0`) and north (radian `π/2`). -/
theorem C3_witness :
    ((0:ℝ) ≤ 0 ∧ (0:ℝ) < π / 2 ∧ π / 2 < 2 * π ∧
      street_id 0 1 ≠ street_id 0 2) ∧
    ((∃ st c1 c2,
      processIntersection ⟨0, 0⟩ 0 [(1, ((1:ℝ), (0:ℝ))), (2, ((0:ℝ), (1:ℝ)))]
        initTCState = .ok st ∧
      allBucketCorners st = [c1, c2, c1, c2] ∧
      ¬ sameCoords c1 c2 ∧
      node_distance (cornerPt c1) ⟨0, 0⟩ = distance_from_center_of_road ∧
      node_distance (cornerPt c2) ⟨0, 0⟩ = distance_from_center_of_road ∧
      crossTotal st = 2) ∧
    (∀ w : Nat, ∃ st1 e1 e2,
      processIntersection ⟨0, 0⟩ 0 [(w, ((1:ℝ), (0:ℝ)))] initTCState =
        .ok st1 ∧
      allBucketCorners st1 = [e1, e2] ∧
      e1.x - (⟨0, 0⟩ : Pt).x = -(e2.x - (⟨0, 0⟩ : Pt).x) ∧
      e1.y - (⟨0, 0⟩ : Pt).y = -(e2.y - (⟨0, 0⟩ : Pt).y) ∧
      node_distance (cornerPt e1) ⟨0, 0⟩ = distance_from_center_of_road ∧
      node_distance (cornerPt e2) ⟨0, 0⟩ = distance_from_center_of_road ∧
      crossTotal st1 = 1)) := by
  have hlt : (0:ℝ) < π / 2 := by positivity
  have h2pi : π / 2 < 2 * π := by nlinarith [Real.pi_pos]
  have hv : street_id 0 1 ≠ street_id 0 2 := by simp [street_id]
  exact ⟨⟨le_refl 0, hlt, h2pi, hv⟩,
    C3_theorem ⟨0, 0⟩ 0 1 2 (1, 0) (0, 1) 0 (π / 2)
      (angle_east 1 one_pos) (angle_north 1 one_pos) hlt (le_refl 0) h2pi hv⟩

/-- C9: as stated, global uniqueness of corner identifiers is refuted by
`C9_counterexample` (a dedup hit resets the running counter, so a later
fresh corner reuses an already-issued id).  Amended form, proved here:
within a single intersection processed on a fresh state (distinct radian
keys), the two synthesized corners receive the distinct identifiers
`400000001` and `400000002`, and the counter ends ahead of every issued
id. -/
theorem C9_theorem (center : Pt) (u v1 v2 : Nat) (d1 d2 : ℝ × ℝ)
    (r1 r2 : ℝ) (h1 : angle (1, 0) d1 = r1) (h2 : angle (1, 0) d2 = r2)
    (hlt : r1 < r2) (h0 : 0 ≤ r1) (h2pi : r2 < 2 * π)
    (hv : street_id u v1 ≠ street_id u v2) :
    ∃ st c1 c2,
      processIntersection center u [(v1, d1), (v2, d2)] initTCState = .ok st ∧
      allBucketCorners st = [c1, c2, c1, c2] ∧
      ¬ sameCoords c1 c2 ∧
      c1.node_for_adding = some 400000001 ∧
      c2.node_for_adding = some 400000002 ∧
      c1.node_for_adding ≠ c2.node_for_adding ∧
      st.counter = 400000002 := by
  refine ⟨_,
    synthCorner center u [street_id u v2, street_id u v1]
      ((r1 + r2) / 2) 400000001,
    synthCorner center u [street_id u v1, street_id u v2]
      ((r1 + r2) / 2 + π) 400000002,
    processIntersection_two center u v1 v2 d1 d2 r1 r2 h1 h2 hlt h0 h2pi hv,
    ?_, ?_, rfl, rfl, by simp [synthCorner], rfl⟩
  · simp [allBucketCorners]
  · intro hs
    exact not_sameCoords_antipodal center.x center.y ((r1 + r2) / 2)
      ((r1 + r2) / 2 + π) rfl 2 2 u u 1 1 _ _ _ _ ⟨hs.1.symm, hs.2.symm⟩

/-- Witness for `C9_theorem`: the intersection `(0,0)` with streets east
and north. -/
theorem C9_witness :
    ((0:ℝ) ≤ 0 ∧ (0:ℝ) < π / 2 ∧ π / 2 < 2 * π ∧
      street_id 0 1 ≠ street_id 0 2) ∧
    (∃ st c1 c2,
      processIntersection ⟨0, 0⟩ 0 [(1, ((1:ℝ), (0:ℝ))), (2, ((0:ℝ), (1:ℝ)))]
        initTCState = .ok st ∧
      allBucketCorners st = [c1, c2, c1, c2] ∧
      ¬ sameCoords c1 c2 ∧
      c1.node_for_adding = some 400000001 ∧
      c2.node_for_adding = some 400000002 ∧
      c1.node_for_adding ≠ c2.node_for_adding ∧
      st.counter = 400000002) := by
  have hlt : (0:ℝ) < π / 2 := by positivity
  have h2pi : π / 2 < 2 * π := by nlinarith [Real.pi_pos]
  have hv : street_id 0 1 ≠ street_id 0 2 := by simp [street_id]
  exact ⟨⟨le_refl 0, hlt, h2pi, hv⟩,
    C9_theorem ⟨0, 0⟩ 0 1 2 (1, 0) (0, 1) 0 (π / 2)
      (angle_east 1 one_pos) (angle_north 1 one_pos) hlt (le_refl 0) h2pi hv⟩

/-- C4: as stated, the dedup invariant is refuted by `C4_counterexample`.
The source's check (line 297) reads the buckets of the intersection's
FIRST street and of the PREVIOUS (`last`) street - not the two streets
the new corner actually belongs to (the current street and the previous
one).  Amended form, proved here: whenever the computed corner is absent
from the first street's and the previous street's buckets, `cornerStep`
allocates a fresh identity `counter + 1` - even when a coordinate-equal
corner is already recorded under the current street's bucket (hypothesis
`hcur`), so dedup is NOT idempotent across the streets involved. -/
theorem C4_theorem (center : Pt) (u v : Nat) (st st1 : TCState)
    (vars : LoopVars) (radian fr lr : ℝ) (fsid lsid : Nat × Nat) (ln : Nat)
    (hfirst : vars.first = some (fr, fsid))
    (hlast : vars.last = some (lr, lsid))
    (hln : vars.last_node = some ln)
    (hst1 : ensureBucket st (street_id u v) = st1)
    (hcur : cornerIn
      ⟨(point_on_circle center distance_from_center_of_road
          (radian - |radian - lr| / 2)).1,
       (point_on_circle center distance_from_center_of_road
          (radian - |radian - lr| / 2)).2,
       2, u, 1, [street_id u v, lsid], none⟩
      (bucketOf st1 (street_id u v)))
    (hf : ¬ cornerIn
      ⟨(point_on_circle center distance_from_center_of_road
          (radian - |radian - lr| / 2)).1,
       (point_on_circle center distance_from_center_of_road
          (radian - |radian - lr| / 2)).2,
       2, u, 1, [street_id u v, lsid], none⟩
      (bucketOf st1 fsid))
    (hl : ¬ cornerIn
      ⟨(point_on_circle center distance_from_center_of_road
          (radian - |radian - lr| / 2)).1,
       (point_on_circle center distance_from_center_of_road
          (radian - |radian - lr| / 2)).2,
       2, u, 1, [street_id u v, lsid], none⟩
      (bucketOf st1 lsid)) :
    cornerStep center u st vars radian v = .ok
      (crossAppend (nodesInsert (bucketAdd (bucketAdd
          { st1 with counter := st1.counter + 1 } (street_id u v)
          ⟨(point_on_circle center distance_from_center_of_road
              (radian - |radian - lr| / 2)).1,
           (point_on_circle center distance_from_center_of_road
              (radian - |radian - lr| / 2)).2,
           2, u, 1, [street_id u v, lsid], some (st1.counter + 1)⟩) lsid
          ⟨(point_on_circle center distance_from_center_of_road
              (radian - |radian - lr| / 2)).1,
           (point_on_circle center distance_from_center_of_road
              (radian - |radian - lr| / 2)).2,
           2, u, 1, [street_id u v, lsid], some (st1.counter + 1)⟩)
          ⟨(point_on_circle center distance_from_center_of_road
              (radian - |radian - lr| / 2)).1,
           (point_on_circle center distance_from_center_of_road
              (radian - |radian - lr| / 2)).2,
           2, u, 1, [street_id u v, lsid], some (st1.counter + 1)⟩)
        lsid (some ln, some (st1.counter + 1)),
       { vars with
           last := some (radian, street_id u v)
           last_node := some (st1.counter + 1)
           street_segment := some (street_id u v) }) := by
  simp only [cornerStep]
  rw [hlast]
  simp only []
  rw [hfirst]
  simp only []
  rw [hst1]
  rw [if_pos ⟨hf, hl⟩]
  simp only []
  rw [hln]

/-- A pre-existing corner for the `C4_theorem` witness: coordinates
`(-0.0001, 0)`, identity `5`, recorded under street `(0, 1)`. -/
def c4Node : TrenchCorner := ⟨-0.0001, 0, 2, 0, 1, [], some 5⟩

/-- The witness state: street `(1, 3)`'s bucket is empty, street
`(0, 1)`'s bucket already holds `c4Node`; counter at `9`. -/
def c4State : TCState := ⟨[], [((1, 3), []), ((0, 1), [c4Node])], [], 9⟩

/-- The witness loop variables: first and previous street `(1, 3)` at
radian `π/2`, previous corner id `7`. -/
def c4Vars : LoopVars :=
  ⟨some (π / 2, (1, 3)), some (π / 2, (1, 3)), none, some 7, some (1, 3)⟩

/-- The corner `cornerStep` computes in the witness configuration: radian
`3π/2 - |3π/2 - π/2|/2 = π`, i.e. coordinates `(-0.0001, 0)` - exactly
`c4Node`'s coordinates. -/
def c4Corner0 : TrenchCorner :=
  ⟨(point_on_circle ⟨0, 0⟩ distance_from_center_of_road
      (3 * π / 2 - |3 * π / 2 - π / 2| / 2)).1,
   (point_on_circle ⟨0, 0⟩ distance_from_center_of_road
      (3 * π / 2 - |3 * π / 2 - π / 2| / 2)).2,
   2, 1, 1, [(0, 1), (1, 3)], none⟩

def c4CornerNew : TrenchCorner := { c4Corner0 with node_for_adding := some 10 }

/-- Witness for `C4_theorem`: a coordinate-equal corner sits in the
current street's bucket (`hcur` below holds), the first/previous-street
buckets are empty, and `cornerStep` still allocates the fresh identity
`10` instead of reusing `c4Node`'s identity `5`. -/
theorem C4_witness :
    (cornerIn c4Corner0 (bucketOf c4State (street_id 1 0)) ∧
     ¬ cornerIn c4Corner0 (bucketOf c4State (1, 3)) ∧
     ensureBucket c4State (street_id 1 0) = c4State) ∧
    cornerStep ⟨0, 0⟩ 1 c4State c4Vars (3 * π / 2) 0 = .ok
      (crossAppend (nodesInsert (bucketAdd (bucketAdd
          { c4State with counter := 10 } (street_id 1 0) c4CornerNew)
          (1, 3) c4CornerNew) c4CornerNew) (1, 3) (some 7, some 10),
       { c4Vars with
           last := some (3 * π / 2, street_id 1 0)
           last_node := some 10
           street_segment := some (street_id 1 0) }) := by
  have hsid : street_id 1 0 = (0, 1) := by simp [street_id]
  have hrad : 3 * π / 2 - |3 * π / 2 - π / 2| / 2 = π := by
    rw [show 3 * π / 2 - π / 2 = π by ring, abs_of_nonneg Real.pi_pos.le]
    ring
  have hsame : sameCoords c4Corner0 c4Node := by
    constructor
    · show (point_on_circle ⟨0, 0⟩ distance_from_center_of_road
        (3 * π / 2 - |3 * π / 2 - π / 2| / 2)).1 = c4Node.x
      rw [hrad]
      norm_num [point_on_circle, Real.cos_pi, distance_from_center_of_road,
        c4Node]
    · show (point_on_circle ⟨0, 0⟩ distance_from_center_of_road
        (3 * π / 2 - |3 * π / 2 - π / 2| / 2)).2 = c4Node.y
      rw [hrad]
      norm_num [point_on_circle, Real.sin_pi, c4Node]
  have hb01 : bucketOf c4State (0, 1) = [c4Node] := by
    simp only [c4State]
    rw [bucketOf_mk, lookup_cons_ne _ _ _ _ (by decide), lookup_cons_self]
    rfl
  have hb13 : bucketOf c4State (1, 3) = [] := by
    simp only [c4State]
    rw [bucketOf_mk, lookup_cons_self]
    rfl
  have hcur : cornerIn c4Corner0 (bucketOf c4State (street_id 1 0)) := by
    rw [hsid, hb01]
    exact cornerIn_head _ _ _ hsame
  have hfr : ¬ cornerIn c4Corner0 (bucketOf c4State (1, 3)) := by
    rw [hb13]
    exact cornerIn_nil _
  have hens : ensureBucket c4State (street_id 1 0) = c4State := by
    rw [hsid]
    simp only [c4State]
    exact ensureBucket_present _ _ _ _ _ _
      (by rw [lookup_cons_ne _ _ _ _ (by decide), lookup_cons_self])
  refine ⟨⟨hcur, hfr, hens⟩, ?_⟩
  exact C4_theorem ⟨0, 0⟩ 1 0 c4State c4State c4Vars (3 * π / 2) (π / 2)
    (π / 2) (1, 3) (1, 3) 7 rfl rfl rfl hens hcur hfr hfr

/-- The C9 counterexample road graph.  Intersection `0` sits at the
origin with a street east (to `1`, curved geometry) and a street west (to
`2`); intersection `1` sits at `(0.0001, 0.0001)` with its street to `0`
leaving northwards (the curved geometry again) and a street south to
`3`. -/
def netC9 : Network :=
  ⟨[⟨0, 0, 0⟩, ⟨1, 0.0001, 0.0001⟩, ⟨2, -1, 0⟩, ⟨3, 0.0001, -0.9999⟩],
   [⟨0, 1, some [(0, 0), (1, 0), (0.0001, 1.0001), (0.0001, 0.0001)]⟩,
    ⟨0, 2, none⟩, ⟨1, 3, none⟩]⟩

/-- Intersection `0`'s in-loop corner: `(0, 0.0001)`, id `400000001`. -/
def cA1 : TrenchCorner := ⟨0, 0.0001, 2, 0, 1, [(0, 2), (0, 1)], some 400000001⟩

/-- Intersection `0`'s wrap-around corner: `(0, -0.0001)`, id
`400000002`. -/
def cA2 : TrenchCorner := ⟨0, -0.0001, 2, 0, 1, [(0, 1), (0, 2)], some 400000002⟩

/-- The synthesis state after intersection `0` of `netC9` (and of
`netC4`). -/
def stA9 : TCState :=
  ⟨[cA1], [((0, 1), [cA1, cA2]), ((0, 2), [cA1, cA2])],
   [((0, 2), [(some 400000001, some 400000002)]),
    ((0, 1), [(some 400000002, some 400000001)])], 400000002⟩

lemma c9_stepA : processIntersection ⟨0, 0⟩ 0
    [(1, ((1:ℝ), (0:ℝ))), (2, ((-1:ℝ), (0:ℝ)))] initTCState = .ok stA9 := by
  have h2pi : π < 2 * π := by linarith [Real.pi_pos]
  have hv : street_id 0 1 ≠ street_id 0 2 := by simp [street_id]
  rw [processIntersection_two ⟨0, 0⟩ 0 1 2 (1, 0) (-1, 0) 0 π
    (angle_east 1 one_pos) (angle_west 1 one_pos) Real.pi_pos (le_refl 0)
    h2pi hv]
  have hm : ((0:ℝ) + π) / 2 = π / 2 := by ring
  have hc1 : Real.cos (((0:ℝ) + π) / 2) = 0 := by
    rw [hm]
    exact Real.cos_pi_div_two
  have hs1 : Real.sin (((0:ℝ) + π) / 2) = 1 := by
    rw [hm]
    exact Real.sin_pi_div_two
  have hc2 : Real.cos (((0:ℝ) + π) / 2 + π) = 0 := by
    rw [hm, Real.cos_add, Real.cos_pi_div_two, Real.sin_pi_div_two,
      Real.cos_pi, Real.sin_pi]
    ring
  have hs2 : Real.sin (((0:ℝ) + π) / 2 + π) = -1 := by
    rw [hm, Real.sin_add, Real.cos_pi_div_two, Real.sin_pi_div_two,
      Real.cos_pi, Real.sin_pi]
    ring
  norm_num [synthCorner, street_id, hc1, hs1, hc2, hs2, stA9, cA1, cA2,
    distance_from_center_of_road]

/-- Intersection `1`'s wrap-around corner in `netC9`: `(0.0002, 0.0001)`.
Because the in-loop corner deduplicated against `cA1` and reset the
counter to `400000001`, this fresh corner is issued id `400000002` -
colliding with `cA2`'s id. -/
def wB9 : TrenchCorner :=
  ⟨0.0002, 0.0001, 2, 1, 1, [(0, 1), (1, 3)], some 400000002⟩

/-- The state after `netC9`'s intersection `1`: bucket `(0, 1)` now holds
`cA2` and `wB9`, two corners with different coordinates and the same id
`400000002`. -/
def stB9 : TCState :=
  ⟨[cA1],
   [((0, 1), [cA1, cA2, wB9]), ((0, 2), [cA1, cA2]), ((1, 3), [wB9])],
   [((0, 2), [(some 400000001, some 400000002)]),
    ((0, 1), [(some 400000002, some 400000001),
              (some 400000002, some 400000001)]),
    ((1, 3), [(some 400000001, some 400000002)])],
   400000002⟩

/-- The intermediate state after intersection `1`'s in-loop entry: the
`(1, 3)` bucket was created, the corner deduplicated against `cA1`, and
the counter was RESET from `400000002` to `400000001`. -/
def stA9p : TCState :=
  ⟨[cA1],
   [((0, 1), [cA1, cA2]), ((0, 2), [cA1, cA2]), ((1, 3), [])],
   [((0, 2), [(some 400000001, some 400000002)]),
    ((0, 1), [(some 400000002, some 400000001)])],
   400000001⟩

lemma nat_beq_false (a b : ℕ) (h : a ≠ b) : (a == b) = false :=
  beq_eq_false_iff_ne.2 h

lemma nat_beq_true (a : ℕ) : (a == a) = true := beq_self_eq_true a

lemma beqp1 : (((1, 3) : ℕ × ℕ) == (0, 1)) = false := by decide

lemma beqp2 : (((1, 3) : ℕ × ℕ) == (0, 2)) = false := by decide

lemma beqp3 : (((0, 1) : ℕ × ℕ) == (0, 2)) = false := by decide

lemma beqp4 : (((0, 2) : ℕ × ℕ) == (0, 1)) = false := by decide

lemma beqp5 : (((0, 1) : ℕ × ℕ) == (1, 3)) = false := by decide

lemma beqp6 : (((0, 2) : ℕ × ℕ) == (1, 3)) = false := by decide

lemma c9_stepB : processIntersection ⟨0.0001, 0.0001⟩ 1
    [(0, ((0:ℝ), (1:ℝ))), (3, ((0:ℝ), (-1:ℝ)))] stA9 = .ok stB9 := by
  have ha1 : angle (1, 0) ((0:ℝ), (1:ℝ)) = π / 2 := angle_north 1 one_pos
  have ha2 : angle (1, 0) ((0:ℝ), (-1:ℝ)) = 3 * π / 2 := angle_south 1 one_pos
  have hne : (π / 2 : ℝ) ≠ 3 * π / 2 := by
    intro h
    nlinarith [Real.pi_pos]
  have hd1 : dictInsert [] (π / 2) 0 = [(π / 2, 0)] := by simp [dictInsert]
  have hd2 : dictInsert [(π / 2, 0)] (3 * π / 2) 3 =
      [(π / 2, 0), (3 * π / 2, 3)] := by
    rw [dictInsert, if_neg]
    · rfl
    · intro hex
      obtain ⟨p, hp, he⟩ := hex
      simp only [List.mem_singleton] at hp
      subst hp
      exact hne he
  have hb : buildNeighbors [(0, ((0:ℝ), (1:ℝ))), (3, ((0:ℝ), (-1:ℝ)))] =
      [(π / 2, 0), (3 * π / 2, 3)] := by
    simp only [buildNeighbors, List.foldl, ha1, ha2, hd1, hd2]
  have hsv : sortPairs (buildNeighbors
      [(0, ((0:ℝ), (1:ℝ))), (3, ((0:ℝ), (-1:ℝ)))]) =
      [(π / 2, 0), (3 * π / 2, 3)] := by
    rw [hb]
    simp [sortPairs, insertSorted,
      (by linarith [Real.pi_pos] : (π / 2 : ℝ) ≤ 3 * π / 2)]
  simp only [processIntersection, hsv]
  have hstep1 : cornerStep ⟨0.0001, 0.0001⟩ 1 stA9 initLoopVars (π / 2) 0 =
      .ok (stA9, ⟨some (π / 2, (0, 1)), some (π / 2, (0, 1)), none, none,
        some (0, 1)⟩) := by
    have hsid : street_id 1 0 = (0, 1) := by simp [street_id]
    simp only [cornerStep, initLoopVars, hsid, stA9]
    rw [ensureBucket_present _ _ _ _ _ _ (lookup_cons_self _ _ _)]
  have hrad : 3 * π / 2 - |3 * π / 2 - π / 2| / 2 = π := by
    rw [show 3 * π / 2 - π / 2 = π by ring, abs_of_nonneg Real.pi_pos.le]
    ring
  have hpx : (point_on_circle ⟨(0.0001:ℝ), (0.0001:ℝ)⟩
      distance_from_center_of_road π).1 = 0 := by
    norm_num [point_on_circle, Real.cos_pi, distance_from_center_of_road]
  have hpy : (point_on_circle ⟨(0.0001:ℝ), (0.0001:ℝ)⟩
      distance_from_center_of_road π).2 = 0.0001 := by
    norm_num [point_on_circle, Real.sin_pi, distance_from_center_of_road]
  have hstep2 : cornerStep ⟨0.0001, 0.0001⟩ 1 stA9
      ⟨some (π / 2, (0, 1)), some (π / 2, (0, 1)), none, none, some (0, 1)⟩
      (3 * π / 2) 3 =
      .ok (stA9p, ⟨some (π / 2, (0, 1)), some (3 * π / 2, (1, 3)),
        some 400000001, some 400000001, some (1, 3)⟩) := by
    simp only [cornerStep]
    rw [hrad]
    simp only [hpx, hpy]
    norm_num [stA9, stA9p, cA1, cA2, ensureBucket, bucketOf, bucketAdd,
      nodesInsert, nodesFind, filterP, cornerIn, sameCoords, crossAppend,
      List.lookup, street_id, beqp1, beqp2, beqp3, beqp4, beqp5, beqp6]
  have hloop : cornerLoop ⟨0.0001, 0.0001⟩ 1 stA9 initLoopVars
      [(π / 2, 0), (3 * π / 2, 3)] =
      .ok (stA9p, ⟨some (π / 2, (0, 1)), some (3 * π / 2, (1, 3)),
        some 400000001, some 400000001, some (1, 3)⟩) := by
    simp only [cornerLoop, hstep1]
    simp only [hstep2]
  rw [hloop]
  simp only []
  rw [if_pos (show 1 < ([(π / 2, 0), (3 * π / 2, 3)] : List (ℝ × Nat)).length
    by norm_num)]
  simp only [wrapStep]
  have habs : π / 2 + 2 * π - |π / 2 + 2 * π - 3 * π / 2| / 2 = 2 * π := by
    rw [show π / 2 + 2 * π - 3 * π / 2 = π by ring,
      abs_of_nonneg Real.pi_pos.le]
    ring
  rw [habs]
  have hwx : (point_on_circle ⟨(0.0001:ℝ), (0.0001:ℝ)⟩
      distance_from_center_of_road (2 * π)).1 = 0.0002 := by
    norm_num [point_on_circle, Real.cos_two_pi, distance_from_center_of_road]
  have hwy : (point_on_circle ⟨(0.0001:ℝ), (0.0001:ℝ)⟩
      distance_from_center_of_road (2 * π)).2 = 0.0001 := by
    norm_num [point_on_circle, Real.sin_two_pi, distance_from_center_of_road]
  simp only [hwx, hwy]
  norm_num [stA9p, stB9, cA1, cA2, wB9, bucketOf, bucketAdd, cornerIn,
    sameCoords, crossAppend, List.lookup, beqp1, beqp2, beqp3, beqp4, beqp5,
    beqp6]

/-- Dead-end corners of `netC9`'s node `2` (the west neighbor). -/
def wW1 : TrenchCorner := ⟨-1, 0.0001, 2, 2, 1, [(0, 2)], some 400000003⟩

def wW2 : TrenchCorner := ⟨-1, -0.0001, 2, 2, 1, [(0, 2)], some 400000004⟩

/-- The state after `netC9`'s node `2`. -/
def stW9 : TCState :=
  ⟨[cA1],
   [((0, 1), [cA1, cA2, wB9]), ((0, 2), [cA1, cA2, wW1, wW2]),
    ((1, 3), [wB9])],
   [((0, 2), [(some 400000001, some 400000002),
              (some 400000003, some 400000004)]),
    ((0, 1), [(some 400000002, some 400000001),
              (some 400000002, some 400000001)]),
    ((1, 3), [(some 400000001, some 400000002)])],
   400000004⟩

lemma c9_stepW : processIntersection ⟨-1, 0⟩ 2 [(0, ((1:ℝ), (0:ℝ)))] stB9 =
    .ok stW9 := by
  have ha : angle (1, 0) ((1:ℝ), (0:ℝ)) = 0 := angle_east 1 one_pos
  have hb : buildNeighbors [(0, ((1:ℝ), (0:ℝ)))] = [(0, 0)] := by
    simp [buildNeighbors, dictInsert, ha]
  have hsv : sortPairs (buildNeighbors [(0, ((1:ℝ), (0:ℝ)))]) = [(0, 0)] := by
    rw [hb]
    simp [sortPairs, insertSorted]
  simp only [processIntersection, hsv]
  have hstep1 : cornerStep ⟨-1, 0⟩ 2 stB9 initLoopVars 0 0 =
      .ok (stB9, ⟨some (0, (0, 2)), some (0, (0, 2)), none, none,
        some (0, 2)⟩) := by
    have hsid : street_id 2 0 = (0, 2) := by simp [street_id]
    simp only [cornerStep, initLoopVars, hsid, stB9]
    rw [ensureBucket_present2 _ _ _ _ _
      (by rw [lookup_cons_ne _ _ _ _ (by decide), lookup_cons_self]; rfl)]
  have hloop : cornerLoop ⟨-1, 0⟩ 2 stB9 initLoopVars [(0, 0)] =
      .ok (stB9, ⟨some (0, (0, 2)), some (0, (0, 2)), none, none,
        some (0, 2)⟩) := by
    simp only [cornerLoop, hstep1]
  rw [hloop]
  simp only []
  rw [if_neg (by norm_num), if_pos (List.length_singleton _)]
  have hp1x : (point_on_circle ⟨(-1:ℝ), (0:ℝ)⟩ distance_from_center_of_road
      ((0:ℝ) + π * 0.5)).1 = -1 := by
    simp only [point_on_circle, cos_half_pi_of_zero]
    norm_num [distance_from_center_of_road]
  have hp1y : (point_on_circle ⟨(-1:ℝ), (0:ℝ)⟩ distance_from_center_of_road
      ((0:ℝ) + π * 0.5)).2 = 0.0001 := by
    simp only [point_on_circle, sin_half_pi_of_zero]
    norm_num [distance_from_center_of_road]
  have hp2x : (point_on_circle ⟨(-1:ℝ), (0:ℝ)⟩ distance_from_center_of_road
      ((0:ℝ) + π * 1.5)).1 = -1 := by
    simp only [point_on_circle, cos_three_half_pi_of_zero]
    norm_num [distance_from_center_of_road]
  have hp2y : (point_on_circle ⟨(-1:ℝ), (0:ℝ)⟩ distance_from_center_of_road
      ((0:ℝ) + π * 1.5)).2 = -0.0001 := by
    simp only [point_on_circle, sin_three_half_pi_of_zero]
    norm_num [distance_from_center_of_road]
  simp only [deadEndStep]
  simp only [hp1x, hp1y, hp2x, hp2y]
  norm_num [stB9, stW9, cA1, cA2, wB9, wW1, wW2, bucketOf, bucketAdd,
    cornerIn, sameCoords, crossEnsure, crossAppendExisting, List.lookup,
    beqp1, beqp2, beqp3, beqp4, beqp5, beqp6]

/-- Dead-end corners of `netC9`'s node `3`. -/
def wD1 : TrenchCorner := ⟨0, -0.9999, 2, 3, 1, [(1, 3)], some 400000005⟩

def wD2 : TrenchCorner := ⟨0.0002, -0.9999, 2, 3, 1, [(1, 3)], some 400000006⟩

/-- The final state of the `netC9` run. -/
def stD9 : TCState :=
  ⟨[cA1],
   [((0, 1), [cA1, cA2, wB9]), ((0, 2), [cA1, cA2, wW1, wW2]),
    ((1, 3), [wB9, wD1, wD2])],
   [((0, 2), [(some 400000001, some 400000002),
              (some 400000003, some 400000004)]),
    ((0, 1), [(some 400000002, some 400000001),
              (some 400000002, some 400000001)]),
    ((1, 3), [(some 400000001, some 400000002),
              (some 400000005, some 400000006)])],
   400000006⟩

lemma c9_stepD : processIntersection ⟨0.0001, -0.9999⟩ 3
    [(1, ((0:ℝ), (1:ℝ)))] stW9 = .ok stD9 := by
  have ha : angle (1, 0) ((0:ℝ), (1:ℝ)) = π / 2 := angle_north 1 one_pos
  have hb : buildNeighbors [(1, ((0:ℝ), (1:ℝ)))] = [(π / 2, 1)] := by
    simp [buildNeighbors, dictInsert, ha]
  have hsv : sortPairs (buildNeighbors [(1, ((0:ℝ), (1:ℝ)))]) =
      [(π / 2, 1)] := by
    rw [hb]
    simp [sortPairs, insertSorted]
  simp only [processIntersection, hsv]
  have hstep1 : cornerStep ⟨0.0001, -0.9999⟩ 3 stW9 initLoopVars (π / 2) 1 =
      .ok (stW9, ⟨some (π / 2, (1, 3)), some (π / 2, (1, 3)), none, none,
        some (1, 3)⟩) := by
    have hsid : street_id 3 1 = (1, 3) := by simp [street_id]
    simp only [cornerStep, initLoopVars, hsid, stW9]
    rw [ensureBucket_present2 _ _ _ _ _
      (by rw [lookup_cons_ne _ _ _ _ (by decide),
        lookup_cons_ne _ _ _ _ (by decide), lookup_cons_self]; rfl)]
  have hloop : cornerLoop ⟨0.0001, -0.9999⟩ 3 stW9 initLoopVars
      [(π / 2, 1)] =
      .ok (stW9, ⟨some (π / 2, (1, 3)), some (π / 2, (1, 3)), none, none,
        some (1, 3)⟩) := by
    simp only [cornerLoop, hstep1]
  rw [hloop]
  simp only []
  rw [if_neg (by norm_num), if_pos (List.length_singleton _)]
  have hc1 : Real.cos (π / 2 + π * 0.5) = -1 := by
    rw [show π / 2 + π * 0.5 = π by ring]
    exact Real.cos_pi
  have hs1 : Real.sin (π / 2 + π * 0.5) = 0 := by
    rw [show π / 2 + π * 0.5 = π by ring]
    exact Real.sin_pi
  have hc2 : Real.cos (π / 2 + π * 1.5) = 1 := by
    rw [show π / 2 + π * 1.5 = 2 * π by ring]
    exact Real.cos_two_pi
  have hs2 : Real.sin (π / 2 + π * 1.5) = 0 := by
    rw [show π / 2 + π * 1.5 = 2 * π by ring]
    exact Real.sin_two_pi
  have hp1x : (point_on_circle ⟨(0.0001:ℝ), (-0.9999:ℝ)⟩
      distance_from_center_of_road (π / 2 + π * 0.5)).1 = 0 := by
    simp only [point_on_circle, hc1]
    norm_num [distance_from_center_of_road]
  have hp1y : (point_on_circle ⟨(0.0001:ℝ), (-0.9999:ℝ)⟩
      distance_from_center_of_road (π / 2 + π * 0.5)).2 = -0.9999 := by
    simp only [point_on_circle, hs1]
    norm_num [distance_from_center_of_road]
  have hp2x : (point_on_circle ⟨(0.0001:ℝ), (-0.9999:ℝ)⟩
      distance_from_center_of_road (π / 2 + π * 1.5)).1 = 0.0002 := by
    simp only [point_on_circle, hc2]
    norm_num [distance_from_center_of_road]
  have hp2y : (point_on_circle ⟨(0.0001:ℝ), (-0.9999:ℝ)⟩
      distance_from_center_of_road (π / 2 + π * 1.5)).2 = -0.9999 := by
    simp only [point_on_circle, hs2]
    norm_num [distance_from_center_of_road]
  simp only [deadEndStep]
  simp only [hp1x, hp1y, hp2x, hp2y]
  norm_num [stW9, stD9, cA1, cA2, wB9, wW1, wW2, wD1, wD2, bucketOf,
    bucketAdd, cornerIn, sameCoords, crossEnsure, crossAppendExisting,
    List.lookup, beqp1, beqp2, beqp3, beqp4, beqp5, beqp6]

lemma c9_dirsA : nodeDirs netC9 ⟨0, 0, 0⟩ =
    [(1, ((1:ℝ), (0:ℝ))), (2, ((-1:ℝ), (0:ℝ)))] := by
  norm_num [nodeDirs, netNeighbors, streetDir, edgeData, findNode, netC9,
    List.filterMap, List.foldl, List.find?, nat_beq_false, nat_beq_true,
    Prod.ext_iff]

lemma c9_dirsB : nodeDirs netC9 ⟨1, 0.0001, 0.0001⟩ =
    [(0, ((0:ℝ), (1:ℝ))), (3, ((0:ℝ), (-1:ℝ)))] := by
  norm_num [nodeDirs, netNeighbors, streetDir, edgeData, findNode, netC9,
    List.filterMap, List.foldl, List.find?, nat_beq_false, nat_beq_true,
    Prod.ext_iff]

lemma c9_dirsW : nodeDirs netC9 ⟨2, -1, 0⟩ = [(0, ((1:ℝ), (0:ℝ)))] := by
  norm_num [nodeDirs, netNeighbors, streetDir, edgeData, findNode, netC9,
    List.filterMap, List.foldl, List.find?, nat_beq_false, nat_beq_true,
    Prod.ext_iff]

lemma c9_dirsD : nodeDirs netC9 ⟨3, 0.0001, -0.9999⟩ =
    [(1, ((0:ℝ), (1:ℝ)))] := by
  norm_num [nodeDirs, netNeighbors, streetDir, edgeData, findNode, netC9,
    List.filterMap, List.foldl, List.find?, nat_beq_false, nat_beq_true,
    Prod.ext_iff]

/-- C9 (counterexample): running the full corner synthesis on `netC9`
produces, in street `(0, 1)`'s bucket, the corners `cA2` (at
`(0, -0.0001)`) and `wB9` (at `(0.0002, 0.0001)`): different coordinates,
same identifier `400000002`.  The in-loop corner of intersection `1`
deduplicated against `cA1` and reset the counter from `400000002` to
`400000001`, so the next fresh corner re-issued `400000002`. -/
theorem C9_counterexample :
    (get_trench_corners netC9).map (fun st => bucketOf st (0, 1)) =
      .ok [cA1, cA2, wB9] ∧
    ¬ sameCoords cA2 wB9 ∧
    cA2.node_for_adding = wB9.node_for_adding ∧
    cA2.node_for_adding = some 400000002 ∧
    wB9.node_for_adding = some 400000002 := by
  have hnodes : netC9.nodes = [⟨0, 0, 0⟩, ⟨1, 0.0001, 0.0001⟩, ⟨2, -1, 0⟩,
      ⟨3, 0.0001, -0.9999⟩] := rfl
  have hrun : get_trench_corners netC9 = .ok stD9 := by
    simp only [get_trench_corners, hnodes, gtcLoop, c9_dirsA, c9_dirsB,
      c9_dirsW, c9_dirsD, c9_stepA, c9_stepB, c9_stepW, c9_stepD]
  rw [hrun]
  refine ⟨?_, ?_, rfl, rfl, rfl⟩
  · norm_num [Except.map, stD9, bucketOf, List.lookup]
  · norm_num [sameCoords, cA2, wB9]

/-- The C4 counterexample road graph: like `netC9`, but the curved street
`0-1` leaves intersection `1` southwards, and node `3` sits north of
intersection `1`; so intersection `1`'s FIRST street (by radian) is
`(1, 3)`, not the street shared with intersection `0`. -/
def netC4 : Network :=
  ⟨[⟨0, 0, 0⟩, ⟨1, 0.0001, 0.0001⟩, ⟨2, -1, 0⟩, ⟨3, 0.0001, 1.0001⟩],
   [⟨0, 1, some [(0, 0), (1, 0), (0.0001, -0.9999), (0.0001, 0.0001)]⟩,
    ⟨0, 2, none⟩, ⟨1, 3, none⟩]⟩

/-- Intersection `1`'s in-loop corner in `netC4`: SAME coordinates as
`cA1`, but the dedup check looked only in the `(1, 3)` buckets (empty),
so a fresh id `400000003` was allocated. -/
def n4 : TrenchCorner := ⟨0, 0.0001, 2, 1, 1, [(0, 1), (1, 3)], some 400000003⟩

def wB4 : TrenchCorner :=
  ⟨0.0002, 0.0001, 2, 1, 1, [(1, 3), (0, 1)], some 400000004⟩

/-- The state after `netC4`'s intersection `1`'s first loop entry. -/
def stA4e : TCState :=
  ⟨[cA1],
   [((0, 1), [cA1, cA2]), ((0, 2), [cA1, cA2]), ((1, 3), [])],
   [((0, 2), [(some 400000001, some 400000002)]),
    ((0, 1), [(some 400000002, some 400000001)])],
   400000002⟩

/-- The state after `netC4`'s intersection `1`'s in-loop corner: bucket
`(0, 1)` still holds the OLD record `cA1` (the Python `set.add` keeps the
existing element), bucket `(1, 3)` holds the duplicate-coordinate record
`n4`, and the `nodes` index entry was overwritten by `n4`. -/
def stB4p : TCState :=
  ⟨[n4],
   [((0, 1), [cA1, cA2]), ((0, 2), [cA1, cA2]), ((1, 3), [n4])],
   [((0, 2), [(some 400000001, some 400000002)]),
    ((0, 1), [(some 400000002, some 400000001)])],
   400000003⟩

/-- The state after `netC4`'s intersection `1`. -/
def stB4 : TCState :=
  ⟨[n4],
   [((0, 1), [cA1, cA2, wB4]), ((0, 2), [cA1, cA2]), ((1, 3), [n4, wB4])],
   [((0, 2), [(some 400000001, some 400000002)]),
    ((0, 1), [(some 400000002, some 400000001),
              (some 400000003, some 400000004)]),
    ((1, 3), [(some 400000004, some 400000003)])],
   400000004⟩

lemma c4_stepB : processIntersection ⟨0.0001, 0.0001⟩ 1
    [(0, ((0:ℝ), (-1:ℝ))), (3, ((0:ℝ), (1:ℝ)))] stA9 = .ok stB4 := by
  have ha1 : angle (1, 0) ((0:ℝ), (-1:ℝ)) = 3 * π / 2 := angle_south 1 one_pos
  have ha2 : angle (1, 0) ((0:ℝ), (1:ℝ)) = π / 2 := angle_north 1 one_pos
  have hne : (3 * π / 2 : ℝ) ≠ π / 2 := by
    intro h
    nlinarith [Real.pi_pos]
  have hd1 : dictInsert [] (3 * π / 2) 0 = [(3 * π / 2, 0)] := by
    simp [dictInsert]
  have hd2 : dictInsert [(3 * π / 2, 0)] (π / 2) 3 =
      [(3 * π / 2, 0), (π / 2, 3)] := by
    rw [dictInsert, if_neg]
    · rfl
    · intro hex
      obtain ⟨p, hp, he⟩ := hex
      simp only [List.mem_singleton] at hp
      subst hp
      exact hne he
  have hb : buildNeighbors [(0, ((0:ℝ), (-1:ℝ))), (3, ((0:ℝ), (1:ℝ)))] =
      [(3 * π / 2, 0), (π / 2, 3)] := by
    simp only [buildNeighbors, List.foldl, ha1, ha2, hd1, hd2]
  have hsv : sortPairs (buildNeighbors
      [(0, ((0:ℝ), (-1:ℝ))), (3, ((0:ℝ), (1:ℝ)))]) =
      [(π / 2, 3), (3 * π / 2, 0)] := by
    rw [hb]
    simp only [sortPairs, insertSorted]
    rw [if_neg (by intro h; nlinarith [Real.pi_pos] : ¬(3 * π / 2 : ℝ) ≤ π / 2)]
  simp only [processIntersection, hsv]
  have hstep1 : cornerStep ⟨0.0001, 0.0001⟩ 1 stA9 initLoopVars (π / 2) 3 =
      .ok (stA4e, ⟨some (π / 2, (1, 3)), some (π / 2, (1, 3)), none, none,
        some (1, 3)⟩) := by
    have hsid : street_id 1 3 = (1, 3) := by simp [street_id]
    simp only [cornerStep, initLoopVars, hsid, stA9, stA4e]
    rw [ensureBucket_missing]
    · simp only [List.cons_append, List.nil_append]
    · rw [lookup_cons_ne _ _ _ _ (by decide), lookup_cons_ne _ _ _ _ (by decide)]
      rfl
  have hrad : 3 * π / 2 - |3 * π / 2 - π / 2| / 2 = π := by
    rw [show 3 * π / 2 - π / 2 = π by ring, abs_of_nonneg Real.pi_pos.le]
    ring
  have hpx : (point_on_circle ⟨(0.0001:ℝ), (0.0001:ℝ)⟩
      distance_from_center_of_road π).1 = 0 := by
    simp only [point_on_circle, Real.cos_pi]
    norm_num [distance_from_center_of_road]
  have hpy : (point_on_circle ⟨(0.0001:ℝ), (0.0001:ℝ)⟩
      distance_from_center_of_road π).2 = 0.0001 := by
    simp only [point_on_circle, Real.sin_pi]
    norm_num [distance_from_center_of_road]
  have hstep2 : cornerStep ⟨0.0001, 0.0001⟩ 1 stA4e
      ⟨some (π / 2, (1, 3)), some (π / 2, (1, 3)), none, none, some (1, 3)⟩
      (3 * π / 2) 0 =
      .ok (stB4p, ⟨some (π / 2, (1, 3)), some (3 * π / 2, (0, 1)),
        some 400000003, some 400000003, some (0, 1)⟩) := by
    simp only [cornerStep]
    rw [hrad]
    simp only [hpx, hpy]
    norm_num [stA4e, stB4p, cA1, cA2, n4, ensureBucket, bucketOf, bucketAdd,
      nodesInsert, nodesFind, filterP, cornerIn, sameCoords, crossAppend,
      List.lookup, street_id, nat_beq_false, nat_beq_true, beqp1, beqp2,
      beqp3, beqp4, beqp5, beqp6]
  have hloop : cornerLoop ⟨0.0001, 0.0001⟩ 1 stA9 initLoopVars
      [(π / 2, 3), (3 * π / 2, 0)] =
      .ok (stB4p, ⟨some (π / 2, (1, 3)), some (3 * π / 2, (0, 1)),
        some 400000003, some 400000003, some (0, 1)⟩) := by
    simp only [cornerLoop, hstep1]
    simp only [hstep2]
  rw [hloop]
  simp only []
  rw [if_pos (show 1 < ([(π / 2, 3), (3 * π / 2, 0)] : List (ℝ × Nat)).length
    by norm_num)]
  simp only [wrapStep]
  have habs : π / 2 + 2 * π - |π / 2 + 2 * π - 3 * π / 2| / 2 = 2 * π := by
    rw [show π / 2 + 2 * π - 3 * π / 2 = π by ring,
      abs_of_nonneg Real.pi_pos.le]
    ring
  rw [habs]
  have hwx : (point_on_circle ⟨(0.0001:ℝ), (0.0001:ℝ)⟩
      distance_from_center_of_road (2 * π)).1 = 0.0002 := by
    simp only [point_on_circle, Real.cos_two_pi]
    norm_num [distance_from_center_of_road]
  have hwy : (point_on_circle ⟨(0.0001:ℝ), (0.0001:ℝ)⟩
      distance_from_center_of_road (2 * π)).2 = 0.0001 := by
    simp only [point_on_circle, Real.sin_two_pi]
    norm_num [distance_from_center_of_road]
  simp only [hwx, hwy]
  norm_num [stB4p, stB4, cA1, cA2, n4, wB4, bucketOf, bucketAdd, cornerIn,
    sameCoords, crossAppend, List.lookup, nat_beq_false, nat_beq_true,
    beqp1, beqp2, beqp3, beqp4, beqp5, beqp6]

/-- Dead-end corners of `netC4`'s node `2`. -/
def wW4a : TrenchCorner := ⟨-1, 0.0001, 2, 2, 1, [(0, 2)], some 400000005⟩

def wW4b : TrenchCorner := ⟨-1, -0.0001, 2, 2, 1, [(0, 2)], some 400000006⟩

def stW4 : TCState :=
  ⟨[n4],
   [((0, 1), [cA1, cA2, wB4]), ((0, 2), [cA1, cA2, wW4a, wW4b]),
    ((1, 3), [n4, wB4])],
   [((0, 2), [(some 400000001, some 400000002),
              (some 400000005, some 400000006)]),
    ((0, 1), [(some 400000002, some 400000001),
              (some 400000003, some 400000004)]),
    ((1, 3), [(some 400000004, some 400000003)])],
   400000006⟩

lemma c4_stepW : processIntersection ⟨-1, 0⟩ 2 [(0, ((1:ℝ), (0:ℝ)))] stB4 =
    .ok stW4 := by
  have ha : angle (1, 0) ((1:ℝ), (0:ℝ)) = 0 := angle_east 1 one_pos
  have hb : buildNeighbors [(0, ((1:ℝ), (0:ℝ)))] = [(0, 0)] := by
    simp [buildNeighbors, dictInsert, ha]
  have hsv : sortPairs (buildNeighbors [(0, ((1:ℝ), (0:ℝ)))]) = [(0, 0)] := by
    rw [hb]
    simp [sortPairs, insertSorted]
  simp only [processIntersection, hsv]
  have hstep1 : cornerStep ⟨-1, 0⟩ 2 stB4 initLoopVars 0 0 =
      .ok (stB4, ⟨some (0, (0, 2)), some (0, (0, 2)), none, none,
        some (0, 2)⟩) := by
    have hsid : street_id 2 0 = (0, 2) := by simp [street_id]
    simp only [cornerStep, initLoopVars, hsid, stB4]
    rw [ensureBucket_present2 _ _ _ _ _
      (by rw [lookup_cons_ne _ _ _ _ (by decide), lookup_cons_self]; rfl)]
  have hloop : cornerLoop ⟨-1, 0⟩ 2 stB4 initLoopVars [(0, 0)] =
      .ok (stB4, ⟨some (0, (0, 2)), some (0, (0, 2)), none, none,
        some (0, 2)⟩) := by
    simp only [cornerLoop, hstep1]
  rw [hloop]
  simp only []
  rw [if_neg (by norm_num), if_pos (List.length_singleton _)]
  have hp1x : (point_on_circle ⟨(-1:ℝ), (0:ℝ)⟩ distance_from_center_of_road
      ((0:ℝ) + π * 0.5)).1 = -1 := by
    simp only [point_on_circle, cos_half_pi_of_zero]
    norm_num [distance_from_center_of_road]
  have hp1y : (point_on_circle ⟨(-1:ℝ), (0:ℝ)⟩ distance_from_center_of_road
      ((0:ℝ) + π * 0.5)).2 = 0.0001 := by
    simp only [point_on_circle, sin_half_pi_of_zero]
    norm_num [distance_from_center_of_road]
  have hp2x : (point_on_circle ⟨(-1:ℝ), (0:ℝ)⟩ distance_from_center_of_road
      ((0:ℝ) + π * 1.5)).1 = -1 := by
    simp only [point_on_circle, cos_three_half_pi_of_zero]
    norm_num [distance_from_center_of_road]
  have hp2y : (point_on_circle ⟨(-1:ℝ), (0:ℝ)⟩ distance_from_center_of_road
      ((0:ℝ) + π * 1.5)).2 = -0.0001 := by
    simp only [point_on_circle, sin_three_half_pi_of_zero]
    norm_num [distance_from_center_of_road]
  simp only [deadEndStep]
  simp only [hp1x, hp1y, hp2x, hp2y]
  norm_num [stB4, stW4, cA1, cA2, n4, wB4, wW4a, wW4b, bucketOf, bucketAdd,
    cornerIn, sameCoords, crossEnsure, crossAppendExisting, List.lookup,
    nat_beq_false, nat_beq_true, beqp1, beqp2, beqp3, beqp4, beqp5, beqp6]

/-- Dead-end corners of `netC4`'s node `3`. -/
def wD4a : TrenchCorner := ⟨0.0002, 1.0001, 2, 3, 1, [(1, 3)], some 400000007⟩

def wD4b : TrenchCorner := ⟨0, 1.0001, 2, 3, 1, [(1, 3)], some 400000008⟩

/-- The final state of the `netC4` run. -/
def stD4 : TCState :=
  ⟨[n4],
   [((0, 1), [cA1, cA2, wB4]), ((0, 2), [cA1, cA2, wW4a, wW4b]),
    ((1, 3), [n4, wB4, wD4a, wD4b])],
   [((0, 2), [(some 400000001, some 400000002),
              (some 400000005, some 400000006)]),
    ((0, 1), [(some 400000002, some 400000001),
              (some 400000003, some 400000004)]),
    ((1, 3), [(some 400000004, some 400000003),
              (some 400000007, some 400000008)])],
   400000008⟩

lemma c4_stepD : processIntersection ⟨0.0001, 1.0001⟩ 3
    [(1, ((0:ℝ), (-1:ℝ)))] stW4 = .ok stD4 := by
  have ha : angle (1, 0) ((0:ℝ), (-1:ℝ)) = 3 * π / 2 := angle_south 1 one_pos
  have hb : buildNeighbors [(1, ((0:ℝ), (-1:ℝ)))] = [(3 * π / 2, 1)] := by
    simp [buildNeighbors, dictInsert, ha]
  have hsv : sortPairs (buildNeighbors [(1, ((0:ℝ), (-1:ℝ)))]) =
      [(3 * π / 2, 1)] := by
    rw [hb]
    simp [sortPairs, insertSorted]
  simp only [processIntersection, hsv]
  have hstep1 : cornerStep ⟨0.0001, 1.0001⟩ 3 stW4 initLoopVars
      (3 * π / 2) 1 =
      .ok (stW4, ⟨some (3 * π / 2, (1, 3)), some (3 * π / 2, (1, 3)), none,
        none, some (1, 3)⟩) := by
    have hsid : street_id 3 1 = (1, 3) := by simp [street_id]
    simp only [cornerStep, initLoopVars, hsid, stW4]
    rw [ensureBucket_present2 _ _ _ _ _
      (by rw [lookup_cons_ne _ _ _ _ (by decide),
        lookup_cons_ne _ _ _ _ (by decide), lookup_cons_self]; rfl)]
  have hloop : cornerLoop ⟨0.0001, 1.0001⟩ 3 stW4 initLoopVars
      [(3 * π / 2, 1)] =
      .ok (stW4, ⟨some (3 * π / 2, (1, 3)), some (3 * π / 2, (1, 3)), none,
        none, some (1, 3)⟩) := by
    simp only [cornerLoop, hstep1]
  rw [hloop]
  simp only []
  rw [if_neg (by norm_num), if_pos (List.length_singleton _)]
  have hc1 : Real.cos (3 * π / 2 + π * 0.5) = 1 := by
    rw [show 3 * π / 2 + π * 0.5 = 2 * π by ring]
    exact Real.cos_two_pi
  have hs1 : Real.sin (3 * π / 2 + π * 0.5) = 0 := by
    rw [show 3 * π / 2 + π * 0.5 = 2 * π by ring]
    exact Real.sin_two_pi
  have hc2 : Real.cos (3 * π / 2 + π * 1.5) = -1 := by
    rw [show 3 * π / 2 + π * 1.5 = π + 2 * π by ring, Real.cos_add,
      Real.cos_pi, Real.sin_pi, Real.cos_two_pi, Real.sin_two_pi]
    ring
  have hs2 : Real.sin (3 * π / 2 + π * 1.5) = 0 := by
    rw [show 3 * π / 2 + π * 1.5 = π + 2 * π by ring, Real.sin_add,
      Real.cos_pi, Real.sin_pi, Real.cos_two_pi, Real.sin_two_pi]
    ring
  have hp1x : (point_on_circle ⟨(0.0001:ℝ), (1.0001:ℝ)⟩
      distance_from_center_of_road (3 * π / 2 + π * 0.5)).1 = 0.0002 := by
    simp only [point_on_circle, hc1]
    norm_num [distance_from_center_of_road]
  have hp1y : (point_on_circle ⟨(0.0001:ℝ), (1.0001:ℝ)⟩
      distance_from_center_of_road (3 * π / 2 + π * 0.5)).2 = 1.0001 := by
    simp only [point_on_circle, hs1]
    norm_num [distance_from_center_of_road]
  have hp2x : (point_on_circle ⟨(0.0001:ℝ), (1.0001:ℝ)⟩
      distance_from_center_of_road (3 * π / 2 + π * 1.5)).1 = 0 := by
    simp only [point_on_circle, hc2]
    norm_num [distance_from_center_of_road]
  have hp2y : (point_on_circle ⟨(0.0001:ℝ), (1.0001:ℝ)⟩
      distance_from_center_of_road (3 * π / 2 + π * 1.5)).2 = 1.0001 := by
    simp only [point_on_circle, hs2]
    norm_num [distance_from_center_of_road]
  simp only [deadEndStep]
  simp only [hp1x, hp1y, hp2x, hp2y]
  norm_num [stW4, stD4, cA1, cA2, n4, wB4, wW4a, wW4b, wD4a, wD4b, bucketOf,
    bucketAdd, cornerIn, sameCoords, crossEnsure, crossAppendExisting,
    List.lookup, nat_beq_false, nat_beq_true, beqp1, beqp2, beqp3, beqp4,
    beqp5, beqp6]

lemma c4_dirsA : nodeDirs netC4 ⟨0, 0, 0⟩ =
    [(1, ((1:ℝ), (0:ℝ))), (2, ((-1:ℝ), (0:ℝ)))] := by
  norm_num [nodeDirs, netNeighbors, streetDir, edgeData, findNode, netC4,
    List.filterMap, List.foldl, List.find?, nat_beq_false, nat_beq_true,
    Prod.ext_iff]

lemma c4_dirsB : nodeDirs netC4 ⟨1, 0.0001, 0.0001⟩ =
    [(0, ((0:ℝ), (-1:ℝ))), (3, ((0:ℝ), (1:ℝ)))] := by
  norm_num [nodeDirs, netNeighbors, streetDir, edgeData, findNode, netC4,
    List.filterMap, List.foldl, List.find?, nat_beq_false, nat_beq_true,
    Prod.ext_iff]

lemma c4_dirsW : nodeDirs netC4 ⟨2, -1, 0⟩ = [(0, ((1:ℝ), (0:ℝ)))] := by
  norm_num [nodeDirs, netNeighbors, streetDir, edgeData, findNode, netC4,
    List.filterMap, List.foldl, List.find?, nat_beq_false, nat_beq_true,
    Prod.ext_iff]

lemma c4_dirsD : nodeDirs netC4 ⟨3, 0.0001, 1.0001⟩ =
    [(1, ((0:ℝ), (-1:ℝ)))] := by
  norm_num [nodeDirs, netNeighbors, streetDir, edgeData, findNode, netC4,
    List.filterMap, List.foldl, List.find?, nat_beq_false, nat_beq_true,
    Prod.ext_iff]

/-- C4 (counterexample): running the full corner synthesis on `netC4`
leaves TWO corner records with identical coordinates `(0, 0.0001)` and
DIFFERENT identities in the output buckets: `cA1` (id `400000001`, under
street `(0, 1)`) and `n4` (id `400000003`, under street `(1, 3)`).  The
dedup check before inserting `n4` read the buckets of intersection `1`'s
first and previous street - both `(1, 3)`, freshly created and empty -
and never looked at the current street's bucket `(0, 1)` that holds
`cA1`. -/
theorem C4_counterexample :
    (get_trench_corners netC4).map
      (fun st => (bucketOf st (0, 1), bucketOf st (1, 3))) =
      .ok ([cA1, cA2, wB4], [n4, wB4, wD4a, wD4b]) ∧
    sameCoords cA1 n4 ∧
    cA1.node_for_adding = some 400000001 ∧
    n4.node_for_adding = some 400000003 ∧
    cA1.node_for_adding ≠ n4.node_for_adding := by
  have hnodes : netC4.nodes = [⟨0, 0, 0⟩, ⟨1, 0.0001, 0.0001⟩, ⟨2, -1, 0⟩,
      ⟨3, 0.0001, 1.0001⟩] := rfl
  have hA4 : processIntersection ⟨0, 0⟩ 0
      [(1, ((1:ℝ), (0:ℝ))), (2, ((-1:ℝ), (0:ℝ)))] initTCState =
      .ok stA9 := c9_stepA
  have hrun : get_trench_corners netC4 = .ok stD4 := by
    simp only [get_trench_corners, hnodes, gtcLoop, c4_dirsA, c4_dirsB,
      c4_dirsW, c4_dirsD, hA4, c4_stepB, c4_stepW, c4_stepD]
  rw [hrun]
  refine ⟨?_, ?_, rfl, rfl, by simp [cA1, n4]⟩
  · norm_num [Except.map, stD4, bucketOf, List.lookup, nat_beq_false,
      nat_beq_true, beqp1, beqp2, beqp3, beqp4, beqp5, beqp6]
  · constructor <;> norm_num [cA1, n4]

end
